import Mathlib

/-!
# ACR: a shallow embedding of `include/ACR/public.h`

The buffer macros of `public.h` are statement macros that mutate a named
struct and call `malloc` / `free`.  Each macro is embedded as a function from
the struct before the macro to the struct after it, paired with the list of
memory calls the macro makes, in program order.  The value `malloc` returns is
not determined by the header, so it is an argument (`answer`) of every macro
that calls it.

Pointers are natural numbers with `ACR_NULL = 0`; lengths are values of
`ACR_Length_t` (`unsigned long`), on which the macros do no arithmetic.

The expression macros (`ACR_UTF8_BYTE_COUNT`, the byte order macros, the decimal
comparison) are functions of the values of their arguments; casts to unsigned
types are reductions modulo a power of two, and decimal values are exact
rationals.  `ACR_StringFromMemory` and `ACR_StringCompareToMemory` are declared
in `public.h` without a body; they are modelled from the specification, over a
source given as the list of bytes at the source pointer.
-/

namespace ACR

/-! ## Definitions -/

/-- Source: `#define ACR_NULL 0` -/
def ACR_NULL : Nat := 0

/-- Source: `#define ACR_ZERO_LENGTH 0` -/
def ACR_ZERO_LENGTH : Nat := 0

/-- Source: `#define ACR_EMPTY_VALUE 0` -/
def ACR_EMPTY_VALUE : Nat := 0

/-- Calls into `<stdlib.h>` made by a macro. -/
inductive MemCall where
  | free (pointer : Nat)
  | malloc (length : Nat)
deriving DecidableEq, Repr

/-- Source: `typedef struct ACR_Buffer_s { ACR_Byte_t* m_Pointer; ACR_Length_t m_Length; } ACR_Buffer_t;` -/
structure ACR_Buffer_t where
  m_Pointer : Nat
  m_Length : Nat
deriving DecidableEq, Repr

/-- Source: `#define ACR_BUFFER(name) ACR_Buffer_t name = {ACR_EMPTY_VALUE};`
The first member is `ACR_EMPTY_VALUE`, the remaining member is zero-initialised. -/
def ACR_BUFFER : ACR_Buffer_t :=
  { m_Pointer := ACR_EMPTY_VALUE, m_Length := 0 }

/-- Source: `#define ACR_BUFFER_GET_LENGTH(name) name.m_Length` -/
def ACR_BUFFER_GET_LENGTH (name : ACR_Buffer_t) : Nat :=
  name.m_Length

/-- Source: `#define ACR_BUFFER_FREE(name)
if(name.m_Pointer != ACR_NULL){ free(name.m_Pointer); name.m_Pointer = ACR_NULL; }
name.m_Length = ACR_ZERO_LENGTH;` -/
def ACR_BUFFER_FREE (name : ACR_Buffer_t) : ACR_Buffer_t × List MemCall :=
  let step1 : ACR_Buffer_t × List MemCall :=
    if name.m_Pointer ≠ ACR_NULL then
      ({ name with m_Pointer := ACR_NULL }, [MemCall.free name.m_Pointer])
    else
      (name, [])
  ({ step1.1 with m_Length := ACR_ZERO_LENGTH }, step1.2)

/-- Source: `#define ACR_BUFFER_REFERENCE(name, memory, length)
name.m_Pointer = (ACR_Byte_t*)memory;
if(name.m_Pointer != ACR_NULL){ name.m_Length = length; }else{ name.m_Length = ACR_ZERO_LENGTH; };` -/
def ACR_BUFFER_REFERENCE (name : ACR_Buffer_t) (memory length : Nat) :
    ACR_Buffer_t × List MemCall :=
  let name1 : ACR_Buffer_t := { name with m_Pointer := memory }
  if name1.m_Pointer ≠ ACR_NULL then
    ({ name1 with m_Length := length }, [])
  else
    ({ name1 with m_Length := ACR_ZERO_LENGTH }, [])

/-- Source: `#define ACR_BUFFER_ALLOC(name, length)
if(name.m_Pointer != ACR_NULL){ free(name.m_Pointer); }
name.m_Pointer = (ACR_Byte_t*)malloc(length);
if(name.m_Pointer != ACR_NULL){ name.m_Length = length; }else{ name.m_Length = ACR_ZERO_LENGTH; };`
`answer` is the value returned by `malloc(length)`. -/
def ACR_BUFFER_ALLOC (name : ACR_Buffer_t) (length answer : Nat) :
    ACR_Buffer_t × List MemCall :=
  let calls1 : List MemCall :=
    if name.m_Pointer ≠ ACR_NULL then [MemCall.free name.m_Pointer] else []
  let name1 : ACR_Buffer_t := { name with m_Pointer := answer }
  let calls2 : List MemCall := calls1 ++ [MemCall.malloc length]
  if name1.m_Pointer ≠ ACR_NULL then
    ({ name1 with m_Length := length }, calls2)
  else
    ({ name1 with m_Length := ACR_ZERO_LENGTH }, calls2)

/-- One macro invocation on a simple buffer, with the arguments it is given
(and, for `ACR_BUFFER_ALLOC`, the value `malloc` answers with). -/
inductive BufferOp where
  | alloc (length answer : Nat)
  | reference (memory length : Nat)
  | release
deriving DecidableEq, Repr

/-- Run one macro invocation. -/
def BufferOp.run (op : BufferOp) (name : ACR_Buffer_t) : ACR_Buffer_t × List MemCall :=
  match op with
  | BufferOp.alloc length answer => ACR_BUFFER_ALLOC name length answer
  | BufferOp.reference memory length => ACR_BUFFER_REFERENCE name memory length
  | BufferOp.release => ACR_BUFFER_FREE name

/-- Run a sequence of macro invocations in order; the result is the buffer
after the last one. -/
def runBufferOps (ops : List BufferOp) (name : ACR_Buffer_t) : ACR_Buffer_t :=
  ops.foldl (fun b op => (op.run b).1) name

/-- An invocation that binds a non-null pointer together with length zero:
`ACR_BUFFER_ALLOC(name, 0)` answered with memory, or
`ACR_BUFFER_REFERENCE(name, memory, 0)` with non-null `memory`. -/
def BufferOp.bindsZeroLength : BufferOp → Bool
  | BufferOp.alloc length answer => decide (length = 0 ∧ answer ≠ ACR_NULL)
  | BufferOp.reference memory length => decide (length = 0 ∧ memory ≠ ACR_NULL)
  | BufferOp.release => false

/-- Source: `typedef struct ACRVarBuffer_s { ACR_Buffer_t m_Buffer; ACR_Length_t m_Length; } ACR_VarBuffer_t;` -/
structure ACR_VarBuffer_t where
  m_Buffer : ACR_Buffer_t
  m_Length : Nat
deriving DecidableEq, Repr

/-- Source: `#define ACR_VAR_BUFFER(name) ACR_VarBuffer_t name = {ACR_EMPTY_VALUE};`
Brace elision puts `ACR_EMPTY_VALUE` in `m_Buffer.m_Pointer`; the rest is
zero-initialised. -/
def ACR_VAR_BUFFER : ACR_VarBuffer_t :=
  { m_Buffer := { m_Pointer := ACR_EMPTY_VALUE, m_Length := 0 }, m_Length := 0 }

/-- Source: `#define ACR_VAR_BUFFER_GET_MAX_LENGTH(name) name.m_Buffer.m_Length` -/
def ACR_VAR_BUFFER_GET_MAX_LENGTH (name : ACR_VarBuffer_t) : Nat :=
  name.m_Buffer.m_Length

/-- Source: `#define ACR_VAR_BUFFER_GET_LENGTH(name) name.m_Length` -/
def ACR_VAR_BUFFER_GET_LENGTH (name : ACR_VarBuffer_t) : Nat :=
  name.m_Length

/-- Source: `#define ACR_VAR_BUFFER_FREE(name)
if(name.m_Buffer.m_Pointer != ACR_NULL){ free(name.m_Buffer.m_Pointer); name.m_Buffer.m_Pointer = ACR_NULL; }
name.m_Buffer.m_Length = ACR_ZERO_LENGTH; name.m_Length = ACR_ZERO_LENGTH;` -/
def ACR_VAR_BUFFER_FREE (name : ACR_VarBuffer_t) : ACR_VarBuffer_t × List MemCall :=
  let step1 : ACR_VarBuffer_t × List MemCall :=
    if name.m_Buffer.m_Pointer ≠ ACR_NULL then
      ({ name with m_Buffer := { name.m_Buffer with m_Pointer := ACR_NULL } },
        [MemCall.free name.m_Buffer.m_Pointer])
    else
      (name, [])
  let name2 : ACR_VarBuffer_t :=
    { step1.1 with m_Buffer := { step1.1.m_Buffer with m_Length := ACR_ZERO_LENGTH } }
  ({ name2 with m_Length := ACR_ZERO_LENGTH }, step1.2)

/-- Source: `#define ACR_VAR_BUFFER_ALLOC(name, length)
if(name.m_Buffer.m_Length < length){
  if(name.m_Buffer.m_Pointer != ACR_NULL){ free(name.m_Buffer.m_Pointer); }
  name.m_Buffer.m_Pointer = (ACR_Byte_t*)malloc(length);
  if(name.m_Buffer.m_Pointer != ACR_NULL){ name.m_Buffer.m_Length = length; }
  else{ name.m_Buffer.m_Length = ACR_ZERO_LENGTH; }
  name.m_Length = name.m_Buffer.m_Length;
}else{ name.m_Length = length; };`
`answer` is the value `malloc(length)` returns when the macro calls it. -/
def ACR_VAR_BUFFER_ALLOC (name : ACR_VarBuffer_t) (length answer : Nat) :
    ACR_VarBuffer_t × List MemCall :=
  if name.m_Buffer.m_Length < length then
    let calls1 : List MemCall :=
      if name.m_Buffer.m_Pointer ≠ ACR_NULL then [MemCall.free name.m_Buffer.m_Pointer] else []
    let name1 : ACR_VarBuffer_t :=
      { name with m_Buffer := { name.m_Buffer with m_Pointer := answer } }
    let calls2 : List MemCall := calls1 ++ [MemCall.malloc length]
    let name2 : ACR_VarBuffer_t :=
      if name1.m_Buffer.m_Pointer ≠ ACR_NULL then
        { name1 with m_Buffer := { name1.m_Buffer with m_Length := length } }
      else
        { name1 with m_Buffer := { name1.m_Buffer with m_Length := ACR_ZERO_LENGTH } }
    ({ name2 with m_Length := name2.m_Buffer.m_Length }, calls2)
  else
    ({ name with m_Length := length }, [])

/-- One macro invocation on a variable length buffer. -/
inductive VarBufferOp where
  | alloc (length answer : Nat)
  | release
deriving DecidableEq, Repr

/-- Run one macro invocation on a variable length buffer. -/
def VarBufferOp.run (op : VarBufferOp) (name : ACR_VarBuffer_t) :
    ACR_VarBuffer_t × List MemCall :=
  match op with
  | VarBufferOp.alloc length answer => ACR_VAR_BUFFER_ALLOC name length answer
  | VarBufferOp.release => ACR_VAR_BUFFER_FREE name

/-- Run a sequence of macro invocations on a variable length buffer. -/
def runVarBufferOps (ops : List VarBufferOp) (name : ACR_VarBuffer_t) : ACR_VarBuffer_t :=
  ops.foldl (fun b op => (op.run b).1) name

/-! ### Informational values -/

/-- Source: `#define ACR_BOOL_FALSE 0` -/
def ACR_BOOL_FALSE : Nat := 0

/-- Source: `typedef enum ACR_Info_e { ACR_INFO_EQUAL = 0, ACR_INFO_NOT_EQUAL, ... ,
ACR_INFO_END, ACR_INFO_COUNT } ACR_Info_t;` with the enumerators in the order
of the header. -/
inductive ACR_Info_t where
  | ACR_INFO_EQUAL
  | ACR_INFO_NOT_EQUAL
  | ACR_INFO_LESS
  | ACR_INFO_GREATER
  | ACR_INFO_UNKNOWN
  | ACR_INFO_TRUE
  | ACR_INFO_FALSE
  | ACR_INFO_OK
  | ACR_INFO_ERROR
  | ACR_INFO_ENABLED
  | ACR_INFO_DISABLED
  | ACR_INFO_YES
  | ACR_INFO_NO
  | ACR_INFO_ON
  | ACR_INFO_OFF
  | ACR_INFO_START
  | ACR_INFO_STOP
  | ACR_INFO_ACCEPT
  | ACR_INFO_IGNORE
  | ACR_INFO_VALID
  | ACR_INFO_INVALID
  | ACR_INFO_TOP
  | ACR_INFO_BOTTOM
  | ACR_INFO_FIRST
  | ACR_INFO_LAST
  | ACR_INFO_PREVIOUS
  | ACR_INFO_NEXT
  | ACR_INFO_CURRENT
  | ACR_INFO_UP
  | ACR_INFO_DOWN
  | ACR_INFO_LEFT
  | ACR_INFO_RIGHT
  | ACR_INFO_OLD
  | ACR_INFO_NEW
  | ACR_INFO_BEGIN
  | ACR_INFO_READY
  | ACR_INFO_WAIT
  | ACR_INFO_GO
  | ACR_INFO_END
  | ACR_INFO_COUNT
deriving DecidableEq, Repr

open ACR_Info_t

/-- The integer value of an enumerator: the first one is `= 0` and each
following enumerator is one more than the one before it. -/
def ACR_Info_t.value (info : ACR_Info_t) : Nat :=
  info.toCtorIdx

/-! ### Decimal values -/

/-- Source: `#define ACR_DEFAULT_TOLERANCE 0.0001`, over exact arithmetic. -/
def ACR_DEFAULT_TOLERANCE : ℚ := 1 / 10000

/-- Source: `#define ACR_DECIMAL_TOLERANCE_COMPARE(a,b,t)
(((a-t)>b)?ACR_INFO_GREATER:((a+t)<b)?ACR_INFO_LESS:ACR_INFO_EQUAL)`,
with the decimal values taken as exact rationals. -/
def ACR_DECIMAL_TOLERANCE_COMPARE (a b t : ℚ) : ACR_Info_t :=
  if (a - t) > b then ACR_INFO_GREATER
  else if (a + t) < b then ACR_INFO_LESS
  else ACR_INFO_EQUAL

/-- Source: `#define ACR_DECIMAL_COMPARE(a,b)
(ACR_DECIMAL_TOLERANCE_COMPARE(a,b,ACR_DEFAULT_TOLERANCE))` -/
def ACR_DECIMAL_COMPARE (a b : ℚ) : ACR_Info_t :=
  ACR_DECIMAL_TOLERANCE_COMPARE a b ACR_DEFAULT_TOLERANCE

/-! ### Endianness -/

/-- Source: `#define ACR_BYTE_ORDER_SWAP_16(x)
(((((unsigned short)(x)) >> 8) & 0x00ff) | ((((unsigned short)(x)) & 0x00ff) << 8))`.
The cast to `unsigned short` keeps the low 16 bits. -/
def ACR_BYTE_ORDER_SWAP_16 (x : Nat) : Nat :=
  (((x % 2 ^ 16) >>> 8) &&& 0x00ff) ||| (((x % 2 ^ 16) &&& 0x00ff) <<< 8)

/-- Source: `#define ACR_BYTE_ORDER_SWAP_32(x)
((((unsigned long)(x) >> 24) & 0x000000ff) | (((unsigned long)(x) >> 8) & 0x0000ff00) |
(((unsigned long)(x) << 8) & 0x00ff0000) | (((unsigned long)(x) << 24) & 0xff000000))`.
`longBits` is the width of `unsigned long`: the cast and the left shifts wrap
modulo `2 ^ longBits`. -/
def ACR_BYTE_ORDER_SWAP_32 (longBits x : Nat) : Nat :=
  (((x % 2 ^ longBits) >>> 24) &&& 0x000000ff) |||
  (((x % 2 ^ longBits) >>> 8) &&& 0x0000ff00) |||
  ((((x % 2 ^ longBits) <<< 8) % 2 ^ longBits) &&& 0x00ff0000) |||
  ((((x % 2 ^ longBits) <<< 24) % 2 ^ longBits) &&& 0xff000000)

/-- Source: `ACR_BYTE_ORDER_16(x)`. With `ACR_ENDIAN_DYNAMIC` it is
`((ACR_IS_BIG_ENDIAN == ACR_BOOL_FALSE)?ACR_BYTE_ORDER_SWAP_16(x):x)`; with a
preset `ACR_IS_BIG_ENDIAN` it is `(ACR_BYTE_ORDER_SWAP_16(x))` under
`#if ACR_IS_BIG_ENDIAN == 0` and `(x)` otherwise. All three are this function
of the value `isBigEndian` of `ACR_IS_BIG_ENDIAN`. -/
def ACR_BYTE_ORDER_16 (isBigEndian x : Nat) : Nat :=
  if isBigEndian = ACR_BOOL_FALSE then ACR_BYTE_ORDER_SWAP_16 x else x

/-- Source: `ACR_BYTE_ORDER_32(x)`, as `ACR_BYTE_ORDER_16` with
`ACR_BYTE_ORDER_SWAP_32`. -/
def ACR_BYTE_ORDER_32 (longBits isBigEndian x : Nat) : Nat :=
  if isBigEndian = ACR_BOOL_FALSE then ACR_BYTE_ORDER_SWAP_32 longBits x else x

/-- The order in which a system lays the bytes of a multibyte value out in
memory, lowest address first. -/
inductive SystemByteOrder where
  | leastSignificantFirst
  | mostSignificantFirst
deriving DecidableEq, Repr

/-- The two bytes a system writes to memory for a 16-bit value, lowest address
first. -/
def storeShort (order : SystemByteOrder) (value : Nat) : List Nat :=
  match order with
  | SystemByteOrder.leastSignificantFirst => [value % 256, value / 256 % 256]
  | SystemByteOrder.mostSignificantFirst => [value / 256 % 256, value % 256]

/-- The 16-bit value a system reads from two bytes of memory (`*(unsigned short *)p`
with the byte at `p` first). -/
def loadShort (order : SystemByteOrder) (first second : Nat) : Nat :=
  match order with
  | SystemByteOrder.leastSignificantFirst => first + 256 * second
  | SystemByteOrder.mostSignificantFirst => 256 * first + second

/-- Source: `#define ACR_IS_BIG_ENDIAN (*(unsigned short *)"\0\xff" < 0x100)`, the
dynamic test; a C comparison yields 1 or 0. -/
def ACR_IS_BIG_ENDIAN (order : SystemByteOrder) : Nat :=
  if loadShort order 0x00 0xff < 0x100 then 1 else 0

/-! ### UTF8 strings -/

/-- Source: `#define ACR_MAX_LENGTH 4294967295UL` -/
def ACR_MAX_LENGTH : Nat := 4294967295

/-- Source: `#define ACR_MAX_COUNT 4294967295UL` -/
def ACR_MAX_COUNT : Nat := 4294967295

/-- Source: `typedef struct ACR_String_s { ACR_Buffer_t m_Buffer; ACR_Count_t m_Count; } ACR_String_t;` -/
structure ACR_String_t where
  m_Buffer : ACR_Buffer_t
  m_Count : Nat
deriving DecidableEq, Repr

/-- Source: `#define ACR_UTF8_BYTE_COUNT(c)
(((c & 0x80) != 0)?((c & 0x40) != 0)?((c & 0x20) != 0)?((c & 0x10) != 0)?4:3:2:1:1)`;
the conditional operator groups to the right. -/
def ACR_UTF8_BYTE_COUNT (c : Nat) : Nat :=
  if (c &&& 0x80) ≠ 0 then
    if (c &&& 0x40) ≠ 0 then
      if (c &&& 0x20) ≠ 0 then
        if (c &&& 0x10) ≠ 0 then 4 else 3
      else 2
    else 1
  else 1

/-- The outcome of one scan over memory: the number of bytes consumed, the
number of characters counted, and the offsets (from the source pointer) of the
bytes the scan has read, in order. -/
structure ScanResult where
  consumed : Nat
  count : Nat
  reads : List Nat
deriving DecidableEq, Repr

/-- Modelled from the spec: the caps of the scan of `ACR_StringFromMemory`. The
scan stops when `srcLength` bytes have been consumed or when `maxCharacters`
characters have been counted; the sentinels `ACR_MAX_LENGTH` and
`ACR_MAX_COUNT` switch the respective cap off. -/
def scanCapReached (srcLength maxCharacters pos count : Nat) : Bool :=
  decide ((srcLength ≠ ACR_MAX_LENGTH ∧ srcLength ≤ pos) ∨
    (maxCharacters ≠ ACR_MAX_COUNT ∧ maxCharacters ≤ count))

/-- Modelled from the spec: the bytes the scan of `ACR_StringFromMemory` advances
for one character with lead byte `lead` at offset `pos`: the sequence length
`ACR_UTF8_BYTE_COUNT(lead)`, or only the bytes that remain before `srcLength`
when those are fewer (a truncated sequence at the byte limit). -/
def scanAdvance (srcLength pos lead : Nat) : Nat :=
  if srcLength ≠ ACR_MAX_LENGTH then min (ACR_UTF8_BYTE_COUNT lead) (srcLength - pos)
  else ACR_UTF8_BYTE_COUNT lead

/-- Modelled from the spec: the scanning loop of `ACR_StringFromMemory`, which
`public.h` declares without a body. `mem` holds the bytes at the source pointer;
bytes past the end of `mem` read as 0, the terminator. Following the spec, the
scan stops when a cap is reached (`scanCapReached`) or at the first null byte.
Otherwise it counts one character for the lead byte it has read and advances by
`scanAdvance`. The first argument bounds the number of iterations;
`mem.length + 1` is always enough. -/
def scanMemory (mem : List Nat) (srcLength maxCharacters : Nat) :
    Nat → Nat → Nat → ScanResult
  | 0, pos, count => { consumed := pos, count := count, reads := [] }
  | fuel + 1, pos, count =>
    if scanCapReached srcLength maxCharacters pos count then
      { consumed := pos, count := count, reads := [] }
    else if mem.getD pos 0 = 0 then
      { consumed := pos, count := count, reads := [pos] }
    else
      let rest := scanMemory mem srcLength maxCharacters fuel
        (pos + scanAdvance srcLength pos (mem.getD pos 0)) (count + 1)
      { consumed := rest.consumed, count := rest.count, reads := pos :: rest.reads }

/-- Modelled from the spec: `ACR_StringFromMemory(src, srcLength, maxCharacters)`,
declared in `public.h` without a body. The result records the source pointer
with the bytes consumed by the scan as `m_Buffer`, and the characters counted
as `m_Count`. `src` is the pointer and `mem` the bytes it points at. The spec
does not say what a null `src` gives; the model scans nothing and returns the
empty string. -/
def ACR_StringFromMemory (src : Nat) (mem : List Nat) (srcLength maxCharacters : Nat) :
    ACR_String_t :=
  if src = ACR_NULL then
    { m_Buffer := { m_Pointer := ACR_NULL, m_Length := 0 }, m_Count := 0 }
  else
    let scan := scanMemory mem srcLength maxCharacters (mem.length + 1) 0 0
    { m_Buffer := { m_Pointer := src, m_Length := scan.consumed }, m_Count := scan.count }

/-- The reference count of UTF-8 sequences in a null-terminated byte sequence:
repeatedly read a lead byte and advance `ACR_UTF8_BYTE_COUNT(lead)` bytes until
the null byte, counting one per sequence. The result is the pair of the bytes
consumed before the null and the number of sequences. Bytes past the end of
`mem` read as 0. -/
def countUtf8Sequences (mem : List Nat) : Nat → Nat → Nat → Nat × Nat
  | 0, pos, count => (pos, count)
  | fuel + 1, pos, count =>
    if mem.getD pos 0 = 0 then (pos, count)
    else countUtf8Sequences mem fuel (pos + ACR_UTF8_BYTE_COUNT (mem.getD pos 0)) (count + 1)

/-- The code points of the first `count` characters of a string of `length`
bytes held in `mem`, from byte offset `pos` on. Each character takes the bytes
its lead byte announces (cut at `length`), decoded by `utf8ToUnicode`. -/
def decodeCharacters (utf8ToUnicode : List Nat → Nat) (mem : List Nat) (length : Nat) :
    Nat → Nat → List Nat
  | 0, _ => []
  | count + 1, pos =>
    let bytes := min (ACR_UTF8_BYTE_COUNT (mem.getD pos 0)) (length - pos)
    utf8ToUnicode ((mem.drop pos).take bytes) ::
      decodeCharacters utf8ToUnicode mem length count (pos + bytes)

/-- Position by position comparison of the code points of the source with those
of the known string: the first unequal pair decides, `ACR_INFO_LESS` when the
source code point is the smaller one and `ACR_INFO_GREATER` when it is the
larger one; `ACR_INFO_EQUAL` when all match. -/
def compareCodePoints : List Nat → List Nat → ACR_Info_t
  | s :: source, k :: known =>
    if s < k then ACR_INFO_LESS
    else if s > k then ACR_INFO_GREATER
    else compareCodePoints source known
  | _, _ => ACR_INFO_EQUAL

/-- Modelled from the spec: `ACR_StringCompareToMemory(string, src, srcLength,
maxCharacters, caseSensitive)`, declared in `public.h` without a body. A null
`src` gives `ACR_INFO_INVALID`. Otherwise `src` is scanned as by
`ACR_StringFromMemory`; a scanned character count below the known string's
`m_Count` gives `ACR_INFO_LESS`, one above it gives `ACR_INFO_GREATER`; with
equal counts the code points are compared in order, both sides folded to lower
case when `caseSensitive` is `ACR_INFO_NO`. `stringMem` holds the bytes the
known string points at. `utf8ToUnicode` and `unicodeToLower` stand for
`ACR_Utf8ToUnicode` and `ACR_UnicodeToLower`, which are declared without a body
and whose values the spec does not fix. -/
def ACR_StringCompareToMemory (utf8ToUnicode : List Nat → Nat) (unicodeToLower : Nat → Nat)
    (string : ACR_String_t) (stringMem : List Nat) (src : Nat) (mem : List Nat)
    (srcLength maxCharacters : Nat) (caseSensitive : ACR_Info_t) : ACR_Info_t :=
  if src = ACR_NULL then ACR_INFO_INVALID
  else
    let scanned := ACR_StringFromMemory src mem srcLength maxCharacters
    if scanned.m_Count < string.m_Count then ACR_INFO_LESS
    else if scanned.m_Count > string.m_Count then ACR_INFO_GREATER
    else
      let fold : Nat → Nat :=
        if caseSensitive = ACR_INFO_NO then unicodeToLower else fun u => u
      let sourcePoints :=
        (decodeCharacters utf8ToUnicode mem scanned.m_Buffer.m_Length scanned.m_Count 0).map fold
      let knownPoints :=
        (decodeCharacters utf8ToUnicode stringMem string.m_Buffer.m_Length string.m_Count 0).map
          fold
      compareCodePoints sourcePoints knownPoints

/-! ### Unique string values -/

/-- Source: `#define ACR_SUCCESS 0` -/
def ACR_SUCCESS : Nat := 0

/-- Source: `typedef enum ACR_DayOfWeek_e { ACR_DAY_SUNDAY = 0, ACR_DAY_MONDAY,
ACR_DAY_TUESDAY, ACR_DAY_WEDNESDAY, ACR_DAY_THURSDAY, ACR_DAY_FRIDAY,
ACR_DAY_SATURDAY, ACR_DAY_COUNT } ACR_DayOfWeek_t;` -/
inductive ACR_DayOfWeek_t where
  | ACR_DAY_SUNDAY
  | ACR_DAY_MONDAY
  | ACR_DAY_TUESDAY
  | ACR_DAY_WEDNESDAY
  | ACR_DAY_THURSDAY
  | ACR_DAY_FRIDAY
  | ACR_DAY_SATURDAY
  | ACR_DAY_COUNT
deriving DecidableEq, Repr

open ACR_DayOfWeek_t

/-- The name of a unique string define: `ACR_INFO_STR_<X>` belongs to the info
value `ACR_INFO_<X>`, and `ACR_DAY_STR_<X>` to the day `ACR_DAY_<X>`. -/
inductive StringDefine where
  | info (value : ACR_Info_t)
  | day (value : ACR_DayOfWeek_t)
deriving DecidableEq, Repr

/-- Source: the `#define ACR_INFO_STR_*` and `#define ACR_DAY_STR_*` lines of the
section UNIQUE STRING VALUES, in file order, each with its string literal. -/
def uniqueStringValues : List (StringDefine × String) :=
  [ (StringDefine.info ACR_INFO_ACCEPT, "accept"),
    (StringDefine.info ACR_INFO_BEGIN, "begin"),
    (StringDefine.info ACR_INFO_BOTTOM, "bottom"),
    (StringDefine.info ACR_INFO_CURRENT, "current"),
    (StringDefine.info ACR_INFO_DISABLED, "disabled"),
    (StringDefine.info ACR_INFO_DOWN, "down"),
    (StringDefine.info ACR_INFO_ENABLED, "enabled"),
    (StringDefine.info ACR_INFO_END, "end"),
    (StringDefine.info ACR_INFO_EQUAL, "equal"),
    (StringDefine.info ACR_INFO_ERROR, "error"),
    (StringDefine.info ACR_INFO_FALSE, "false"),
    (StringDefine.info ACR_INFO_FIRST, "first"),
    (StringDefine.day ACR_DAY_FRIDAY, "fri"),
    (StringDefine.info ACR_INFO_GO, "go"),
    (StringDefine.info ACR_INFO_GREATER, "greater"),
    (StringDefine.info ACR_INFO_IGNORE, "ignore"),
    (StringDefine.info ACR_INFO_INVALID, "invalid"),
    (StringDefine.info ACR_INFO_LAST, "last"),
    (StringDefine.info ACR_INFO_LEFT, "left"),
    (StringDefine.info ACR_INFO_LESS, "less"),
    (StringDefine.day ACR_DAY_MONDAY, "mon"),
    (StringDefine.info ACR_INFO_NEW, "new"),
    (StringDefine.info ACR_INFO_NEXT, "next"),
    (StringDefine.info ACR_INFO_NO, "no"),
    (StringDefine.info ACR_INFO_NOT_EQUAL, "not_equal"),
    (StringDefine.info ACR_INFO_OFF, "off"),
    (StringDefine.info ACR_INFO_OK, "ok"),
    (StringDefine.info ACR_INFO_OLD, "old"),
    (StringDefine.info ACR_INFO_ON, "on"),
    (StringDefine.info ACR_INFO_PREVIOUS, "previous"),
    (StringDefine.info ACR_INFO_READY, "ready"),
    (StringDefine.info ACR_INFO_RIGHT, "right"),
    (StringDefine.day ACR_DAY_SATURDAY, "sat"),
    (StringDefine.info ACR_INFO_START, "start"),
    (StringDefine.info ACR_INFO_STOP, "stop"),
    (StringDefine.day ACR_DAY_SUNDAY, "sun"),
    (StringDefine.day ACR_DAY_THURSDAY, "thurs"),
    (StringDefine.info ACR_INFO_TOP, "top"),
    (StringDefine.info ACR_INFO_TRUE, "true"),
    (StringDefine.day ACR_DAY_TUESDAY, "tues"),
    (StringDefine.info ACR_INFO_UNKNOWN, "unknown"),
    (StringDefine.info ACR_INFO_UP, "up"),
    (StringDefine.info ACR_INFO_VALID, "valid"),
    (StringDefine.info ACR_INFO_WAIT, "wait"),
    (StringDefine.day ACR_DAY_WEDNESDAY, "wed"),
    (StringDefine.info ACR_INFO_YES, "yes") ]

/-- The string literals of the unique string defines, in file order. -/
def uniqueStringLiterals : List String :=
  uniqueStringValues.map Prod.snd

/-- Lexicographic order of two string literals, character by character (for
these ASCII literals the order of their bytes, as `strcmp` has it); a proper
prefix comes first. -/
def literalLess : List Char → List Char → Bool
  | [], [] => false
  | [], _ :: _ => true
  | _ :: _, [] => false
  | a :: as, b :: bs =>
    if a.toNat < b.toNat then true
    else if b.toNat < a.toNat then false
    else literalLess as bs

/-- The number of unique string defines that belong to `key`. -/
def definesFor (key : StringDefine) : Nat :=
  (uniqueStringValues.filter (fun entry => decide (entry.1 = key))).length

/-! ## Shared lemmas -/

theorem buffer_alloc_fst (name : ACR_Buffer_t) (length answer : Nat) :
    (ACR_BUFFER_ALLOC name length answer).1 =
      { m_Pointer := answer, m_Length := if answer = ACR_NULL then 0 else length } := by
  unfold ACR_BUFFER_ALLOC
  by_cases h : answer = ACR_NULL <;> simp [h, ACR_ZERO_LENGTH]

theorem buffer_reference_fst (name : ACR_Buffer_t) (memory length : Nat) :
    (ACR_BUFFER_REFERENCE name memory length).1 =
      { m_Pointer := memory, m_Length := if memory = ACR_NULL then 0 else length } := by
  unfold ACR_BUFFER_REFERENCE
  by_cases h : memory = ACR_NULL <;> simp [h, ACR_ZERO_LENGTH]

theorem buffer_free_fst (name : ACR_Buffer_t) :
    (ACR_BUFFER_FREE name).1 = { m_Pointer := ACR_NULL, m_Length := 0 } := by
  unfold ACR_BUFFER_FREE
  by_cases h : name.m_Pointer = ACR_NULL <;> simp [h, ACR_ZERO_LENGTH]

theorem runBufferOps_snoc (ops : List BufferOp) (op : BufferOp) (name : ACR_Buffer_t) :
    runBufferOps (ops ++ [op]) name = (op.run (runBufferOps ops name)).1 := by
  simp [runBufferOps, List.foldl_append]

theorem runVarBufferOps_snoc (ops : List VarBufferOp) (op : VarBufferOp)
    (name : ACR_VarBuffer_t) :
    runVarBufferOps (ops ++ [op]) name = (op.run (runVarBufferOps ops name)).1 := by
  simp [runVarBufferOps, List.foldl_append]

theorem var_buffer_alloc_fits (name : ACR_VarBuffer_t) (length answer : Nat)
    (h : length ≤ name.m_Buffer.m_Length) :
    ACR_VAR_BUFFER_ALLOC name length answer = ({ name with m_Length := length }, []) := by
  unfold ACR_VAR_BUFFER_ALLOC
  simp [Nat.not_lt.mpr h]

theorem var_buffer_alloc_grows (name : ACR_VarBuffer_t) (length answer : Nat)
    (h : name.m_Buffer.m_Length < length) :
    ACR_VAR_BUFFER_ALLOC name length answer =
      ({ m_Buffer := { m_Pointer := answer,
                       m_Length := if answer = ACR_NULL then 0 else length },
         m_Length := if answer = ACR_NULL then 0 else length },
       (if name.m_Buffer.m_Pointer = ACR_NULL then []
        else [MemCall.free name.m_Buffer.m_Pointer]) ++ [MemCall.malloc length]) := by
  unfold ACR_VAR_BUFFER_ALLOC
  by_cases ha : answer = ACR_NULL <;> by_cases hp : name.m_Buffer.m_Pointer = ACR_NULL <;>
    simp [h, ha, hp, ACR_ZERO_LENGTH]

theorem var_buffer_free_fst (name : ACR_VarBuffer_t) :
    (ACR_VAR_BUFFER_FREE name).1 =
      { m_Buffer := { m_Pointer := ACR_NULL, m_Length := 0 }, m_Length := 0 } := by
  unfold ACR_VAR_BUFFER_FREE
  by_cases h : name.m_Buffer.m_Pointer = ACR_NULL <;> simp [h, ACR_ZERO_LENGTH]

/-- Every single macro invocation on a variable length buffer leaves the used
length within the capacity, whatever the buffer was before. -/
theorem var_buffer_step_le (op : VarBufferOp) (name : ACR_VarBuffer_t) :
    (op.run name).1.m_Length ≤ (op.run name).1.m_Buffer.m_Length := by
  cases op with
  | alloc length answer =>
    by_cases h : name.m_Buffer.m_Length < length
    · simp [VarBufferOp.run, var_buffer_alloc_grows _ _ _ h]
    · have h2 : length ≤ name.m_Buffer.m_Length := Nat.not_lt.mp h
      simp [VarBufferOp.run, var_buffer_alloc_fits _ _ _ h2, h2]
  | release => simp [VarBufferOp.run, var_buffer_free_fst]

/-- The used length stays within the capacity along every run from the empty
variable buffer. -/
theorem run_var_buffer_ops_le (ops : List VarBufferOp) :
    (runVarBufferOps ops ACR_VAR_BUFFER).m_Length ≤
      (runVarBufferOps ops ACR_VAR_BUFFER).m_Buffer.m_Length := by
  rcases List.eq_nil_or_concat ops with h | ⟨init, op, h⟩
  · subst h
    simp [runVarBufferOps, ACR_VAR_BUFFER]
  · subst h
    rw [List.concat_eq_append, runVarBufferOps_snoc]
    exact var_buffer_step_le op _

/-! ### Lemmas on the UTF8 scan -/

theorem utf8_byte_count_pos (c : Nat) : 1 ≤ ACR_UTF8_BYTE_COUNT c := by
  unfold ACR_UTF8_BYTE_COUNT
  split_ifs <;> omega

theorem scanCapReached_false_lt (L M pos count : Nat) (hL : L ≠ ACR_MAX_LENGTH)
    (h : scanCapReached L M pos count = false) : pos < L := by
  by_contra hc
  have : scanCapReached L M pos count = true := by
    simp [scanCapReached, hL, Nat.not_lt.mp hc]
  rw [this] at h
  exact absurd h (by decide)

theorem scanCapReached_false_count (L M pos count : Nat) (hM : M ≠ ACR_MAX_COUNT)
    (h : scanCapReached L M pos count = false) : count < M := by
  by_contra hc
  have : scanCapReached L M pos count = true := by
    simp [scanCapReached, hM, Nat.not_lt.mp hc]
  rw [this] at h
  exact absurd h (by decide)

theorem scanAdvance_pos (L M pos count lead : Nat)
    (h : scanCapReached L M pos count = false) : 1 ≤ scanAdvance L pos lead := by
  have hb := utf8_byte_count_pos lead
  unfold scanAdvance
  by_cases hL : L = ACR_MAX_LENGTH
  · rw [if_neg (not_not.mpr hL)]
    exact hb
  · rw [if_pos hL]
    have := scanCapReached_false_lt L M pos count hL h
    omega

theorem scanAdvance_le (L pos lead : Nat) (hL : L ≠ ACR_MAX_LENGTH) (h : pos ≤ L) :
    pos + scanAdvance L pos lead ≤ L := by
  unfold scanAdvance
  rw [if_pos hL]
  omega

theorem scanMemory_zero (mem : List Nat) (L M pos count : Nat) :
    scanMemory mem L M 0 pos count = { consumed := pos, count := count, reads := [] } := rfl

theorem scanMemory_capped (mem : List Nat) (L M fuel pos count : Nat)
    (h : scanCapReached L M pos count = true) :
    scanMemory mem L M (fuel + 1) pos count =
      { consumed := pos, count := count, reads := [] } := by
  rw [scanMemory, if_pos h]

theorem scanMemory_null (mem : List Nat) (L M fuel pos count : Nat)
    (h : scanCapReached L M pos count = false) (h0 : mem.getD pos 0 = 0) :
    scanMemory mem L M (fuel + 1) pos count =
      { consumed := pos, count := count, reads := [pos] } := by
  rw [scanMemory, if_neg (by rw [h]; decide), if_pos h0]

theorem scanMemory_step (mem : List Nat) (L M fuel pos count : Nat)
    (h : scanCapReached L M pos count = false) (h0 : mem.getD pos 0 ≠ 0) :
    scanMemory mem L M (fuel + 1) pos count =
      { consumed := (scanMemory mem L M fuel
          (pos + scanAdvance L pos (mem.getD pos 0)) (count + 1)).consumed,
        count := (scanMemory mem L M fuel
          (pos + scanAdvance L pos (mem.getD pos 0)) (count + 1)).count,
        reads := pos :: (scanMemory mem L M fuel
          (pos + scanAdvance L pos (mem.getD pos 0)) (count + 1)).reads } := by
  rw [scanMemory, if_neg (by rw [h]; decide), if_neg h0]

/-- With a finite byte limit the scan never consumes more than the limit. -/
theorem scanMemory_consumed_le (mem : List Nat) (L M : Nat) (hL : L ≠ ACR_MAX_LENGTH) :
    ∀ fuel pos count, pos ≤ L → (scanMemory mem L M fuel pos count).consumed ≤ L := by
  intro fuel
  induction fuel with
  | zero => intro pos count h; exact h
  | succ n ih =>
    intro pos count h
    cases hc : scanCapReached L M pos count with
    | true => rw [scanMemory_capped _ _ _ _ _ _ hc]; exact h
    | false =>
      by_cases h0 : mem.getD pos 0 = 0
      · rw [scanMemory_null _ _ _ _ _ _ hc h0]; exact h
      · rw [scanMemory_step _ _ _ _ _ _ hc h0]
        exact ih _ _ (scanAdvance_le L pos _ hL h)

/-- With a character cap the scan never counts more than the cap. -/
theorem scanMemory_count_le_cap (mem : List Nat) (L M : Nat) (hM : M ≠ ACR_MAX_COUNT) :
    ∀ fuel pos count, count ≤ M → (scanMemory mem L M fuel pos count).count ≤ M := by
  intro fuel
  induction fuel with
  | zero => intro pos count h; exact h
  | succ n ih =>
    intro pos count h
    cases hc : scanCapReached L M pos count with
    | true => rw [scanMemory_capped _ _ _ _ _ _ hc]; exact h
    | false =>
      by_cases h0 : mem.getD pos 0 = 0
      · rw [scanMemory_null _ _ _ _ _ _ hc h0]; exact h
      · rw [scanMemory_step _ _ _ _ _ _ hc h0]
        exact ih _ _ (scanCapReached_false_count L M pos count hM hc)

/-- Every counted character consumes at least one byte. -/
theorem scanMemory_count_le_consumed (mem : List Nat) (L M : Nat) :
    ∀ fuel pos count, count ≤ pos →
      (scanMemory mem L M fuel pos count).count ≤ (scanMemory mem L M fuel pos count).consumed := by
  intro fuel
  induction fuel with
  | zero => intro pos count h; exact h
  | succ n ih =>
    intro pos count h
    cases hc : scanCapReached L M pos count with
    | true => rw [scanMemory_capped _ _ _ _ _ _ hc]; exact h
    | false =>
      by_cases h0 : mem.getD pos 0 = 0
      · rw [scanMemory_null _ _ _ _ _ _ hc h0]; exact h
      · rw [scanMemory_step _ _ _ _ _ _ hc h0]
        have := scanAdvance_pos L M pos count (mem.getD pos 0) hc
        exact ih _ _ (by omega)

/-- With a finite byte limit every offset the scan reads lies below the limit. -/
theorem scanMemory_reads_lt (mem : List Nat) (L M : Nat) (hL : L ≠ ACR_MAX_LENGTH) :
    ∀ fuel pos count, ∀ off ∈ (scanMemory mem L M fuel pos count).reads, off < L := by
  intro fuel
  induction fuel with
  | zero => intro pos count off h; simp [scanMemory_zero] at h
  | succ n ih =>
    intro pos count off h
    cases hc : scanCapReached L M pos count with
    | true =>
      rw [scanMemory_capped _ _ _ _ _ _ hc] at h
      simp at h
    | false =>
      have hpos := scanCapReached_false_lt L M pos count hL hc
      by_cases h0 : mem.getD pos 0 = 0
      · rw [scanMemory_null _ _ _ _ _ _ hc h0] at h
        simp only [List.mem_singleton] at h
        rw [h]
        exact hpos
      · rw [scanMemory_step _ _ _ _ _ _ hc h0] at h
        simp only [List.mem_cons] at h
        rcases h with h | h
        · rw [h]
          exact hpos
        · exact ih _ _ off h

/-- Once the iteration bound exceeds the bytes of `mem` left after `pos`, a
larger bound gives the same scan: the scan has stopped on its own. -/
theorem scanMemory_fuel_enough (mem : List Nat) (L M : Nat) :
    ∀ fuel pos count, mem.length < pos + fuel → 0 < fuel →
      scanMemory mem L M (fuel + 1) pos count = scanMemory mem L M fuel pos count := by
  intro fuel
  induction fuel with
  | zero => intro pos count _ h; exact absurd h (by decide)
  | succ n ih =>
    intro pos count hlen _
    cases hc : scanCapReached L M pos count with
    | true => rw [scanMemory_capped _ _ _ (n + 1) _ _ hc, scanMemory_capped _ _ _ n _ _ hc]
    | false =>
      by_cases h0 : mem.getD pos 0 = 0
      · rw [scanMemory_null _ _ _ (n + 1) _ _ hc h0, scanMemory_null _ _ _ n _ _ hc h0]
      · have hin : pos < mem.length := by
          by_contra hge
          apply h0
          simp [List.getD_eq_getElem?_getD, List.getElem?_eq_none (Nat.not_lt.mp hge)]
        have hadv := scanAdvance_pos L M pos count (mem.getD pos 0) hc
        rw [scanMemory_step _ _ _ (n + 1) _ _ hc h0, scanMemory_step _ _ _ n _ _ hc h0,
          ih _ _ (by omega) (by omega)]

theorem scanMemory_fuel_add (mem : List Nat) (L M : Nat) (extra : Nat) :
    scanMemory mem L M (mem.length + 1 + extra) 0 0 = scanMemory mem L M (mem.length + 1) 0 0 := by
  induction extra with
  | zero => rfl
  | succ k ih =>
    rw [← Nat.add_assoc, scanMemory_fuel_enough mem L M _ 0 0 (by omega) (by omega), ih]

/-- With both caps switched off the scan is the reference count of sequences. -/
theorem scanMemory_unbounded (mem : List Nat) :
    ∀ fuel pos count,
      (scanMemory mem ACR_MAX_LENGTH ACR_MAX_COUNT fuel pos count).consumed =
        (countUtf8Sequences mem fuel pos count).1 ∧
      (scanMemory mem ACR_MAX_LENGTH ACR_MAX_COUNT fuel pos count).count =
        (countUtf8Sequences mem fuel pos count).2 := by
  intro fuel
  induction fuel with
  | zero => intro pos count; exact ⟨rfl, rfl⟩
  | succ n ih =>
    intro pos count
    have hc : scanCapReached ACR_MAX_LENGTH ACR_MAX_COUNT pos count = false := by
      simp [scanCapReached]
    by_cases h0 : mem.getD pos 0 = 0
    · rw [scanMemory_null _ _ _ _ _ _ hc h0, countUtf8Sequences, if_pos h0]
      exact ⟨rfl, rfl⟩
    · rw [scanMemory_step _ _ _ _ _ _ hc h0, countUtf8Sequences, if_neg h0]
      have hadv : scanAdvance ACR_MAX_LENGTH pos (mem.getD pos 0) =
          ACR_UTF8_BYTE_COUNT (mem.getD pos 0) := by
        simp [scanAdvance]
      rw [hadv]
      exact ih _ _

/-- The reference count of sequences stops on a null byte once the iteration
bound exceeds the bytes of `mem` left after `pos`. -/
theorem countUtf8Sequences_stops_at_null (mem : List Nat) :
    ∀ fuel pos count, mem.length < pos + fuel →
      mem.getD (countUtf8Sequences mem fuel pos count).1 0 = 0 := by
  intro fuel
  induction fuel with
  | zero =>
    intro pos count h
    have hle : mem.length ≤ pos := by omega
    simp [countUtf8Sequences, List.getElem?_eq_none hle]
  | succ n ih =>
    intro pos count h
    by_cases h0 : mem.getD pos 0 = 0
    · rw [countUtf8Sequences, if_pos h0]
      exact h0
    · rw [countUtf8Sequences, if_neg h0]
      have hb := utf8_byte_count_pos (mem.getD pos 0)
      exact ih _ _ (by omega)

/-- A truncated sequence at the byte limit: the scan counts one character,
advances to the limit and stops there, having read the lead byte only. -/
theorem scanMemory_truncated (mem : List Nat) (L M fuel pos count : Nat)
    (hL : L ≠ ACR_MAX_LENGTH) (hpos : pos < L) (hM : M = ACR_MAX_COUNT ∨ count < M)
    (h0 : mem.getD pos 0 ≠ 0) (hcut : L - pos < ACR_UTF8_BYTE_COUNT (mem.getD pos 0)) :
    scanMemory mem L M (fuel + 1) pos count =
      { consumed := L, count := count + 1, reads := [pos] } := by
  have hc : scanCapReached L M pos count = false := by
    rcases hM with hM | hM
    · simp [scanCapReached, hM, hpos]
    · simp [scanCapReached, hM, hpos]
  have hadv : pos + scanAdvance L pos (mem.getD pos 0) = L := by
    unfold scanAdvance
    rw [if_pos hL]
    omega
  rw [scanMemory_step _ _ _ _ _ _ hc h0, hadv]
  cases fuel with
  | zero => rfl
  | succ k =>
    rw [scanMemory_capped _ _ _ _ _ _ (by simp [scanCapReached, hL])]

/-! ### Lemmas on byte masks -/

theorem and_byte_mask (y k : Nat) : y &&& (255 <<< k) = (y >>> k % 256) <<< k := by
  apply Nat.eq_of_testBit_eq
  intro i
  have h255 : (255 : Nat) = 2 ^ 8 - 1 := by norm_num
  have h256 : (256 : Nat) = 2 ^ 8 := by norm_num
  rw [h255, h256]
  simp only [Nat.testBit_and, Nat.testBit_shiftLeft, Nat.testBit_two_pow_sub_one,
    Nat.testBit_mod_two_pow, Nat.testBit_shiftRight]
  by_cases hk : k ≤ i
  · have : k + (i - k) = i := by omega
    simp [hk, this, Bool.and_comm]
  · simp [hk]

theorem or_bytes (c0 c1 c2 c3 : Nat) (h0 : c0 < 256) (h1 : c1 < 256) (h2 : c2 < 256) :
    c0 ||| (c1 <<< 8) ||| (c2 <<< 16) ||| (c3 <<< 24)
      = c0 + 256 * c1 + 65536 * c2 + 16777216 * c3 := by
  simp only [Nat.shiftLeft_eq]
  have e1 : c0 ||| c1 * 2 ^ 8 = 2 ^ 8 * c1 + c0 := by
    rw [Nat.lor_comm, Nat.mul_comm, ← Nat.mul_add_lt_is_or (by norm_num; exact h0)]
  have e2 : (2 ^ 8 * c1 + c0) ||| c2 * 2 ^ 16 = 2 ^ 16 * c2 + (2 ^ 8 * c1 + c0) := by
    rw [Nat.lor_comm, Nat.mul_comm, ← Nat.mul_add_lt_is_or (by norm_num; omega)]
  have e3 : (2 ^ 16 * c2 + (2 ^ 8 * c1 + c0)) ||| c3 * 2 ^ 24
      = 2 ^ 24 * c3 + (2 ^ 16 * c2 + (2 ^ 8 * c1 + c0)) := by
    rw [Nat.lor_comm, Nat.mul_comm, ← Nat.mul_add_lt_is_or (by norm_num; omega)]
  rw [e1, e2, e3]
  norm_num
  omega

/-- The 16-bit swap in arithmetic: the high byte moves down, the low byte up. -/
theorem swap_16_arith (x : Nat) :
    ACR_BYTE_ORDER_SWAP_16 x = (x % 65536) / 256 + 256 * (x % 256) := by
  unfold ACR_BYTE_ORDER_SWAP_16
  have h255 : (0x00ff : Nat) = 2 ^ 8 - 1 := by norm_num
  rw [h255, Nat.and_pow_two_sub_one_eq_mod, Nat.and_pow_two_sub_one_eq_mod,
    Nat.shiftRight_eq_div_pow, Nat.shiftLeft_eq]
  have hlt : x % 2 ^ 16 / 2 ^ 8 % 2 ^ 8 < 2 ^ 8 := Nat.mod_lt _ (by norm_num)
  rw [Nat.lor_comm, Nat.mul_comm, ← Nat.mul_add_lt_is_or hlt]
  norm_num
  omega

/-- The 32-bit swap in arithmetic, for `unsigned long` of 32 or 64 bits: the
four low-order bytes in reverse order. -/
theorem swap_32_arith (w x : Nat) (hw : w = 32 ∨ w = 64) :
    ACR_BYTE_ORDER_SWAP_32 w x =
      (x % 4294967296) / 16777216 + 256 * (x / 65536 % 256)
        + 65536 * (x / 256 % 256) + 16777216 * (x % 256) := by
  unfold ACR_BYTE_ORDER_SWAP_32
  have m0 : (0x000000ff : Nat) = 2 ^ 8 - 1 := by norm_num
  have m1 : (0x0000ff00 : Nat) = 255 <<< 8 := by decide
  have m2 : (0x00ff0000 : Nat) = 255 <<< 16 := by decide
  have m3 : (0xff000000 : Nat) = 255 <<< 24 := by decide
  rw [m1, m2, m3, and_byte_mask, and_byte_mask, and_byte_mask, m0,
    Nat.and_pow_two_sub_one_eq_mod]
  rw [or_bytes _ _ _ _ (Nat.mod_lt _ (by norm_num)) (Nat.mod_lt _ (by norm_num))
    (Nat.mod_lt _ (by norm_num))]
  simp only [Nat.shiftRight_eq_div_pow, Nat.shiftLeft_eq]
  rcases hw with rfl | rfl <;> norm_num <;> omega

theorem swap_16_bytes (b0 b1 : Nat) (h0 : b0 < 256) (h1 : b1 < 256) :
    ACR_BYTE_ORDER_SWAP_16 (b0 + 256 * b1) = b1 + 256 * b0 := by
  rw [swap_16_arith]
  omega

theorem swap_32_bytes (w b0 b1 b2 b3 : Nat) (hw : w = 32 ∨ w = 64)
    (h0 : b0 < 256) (h1 : b1 < 256) (h2 : b2 < 256) (h3 : b3 < 256) :
    ACR_BYTE_ORDER_SWAP_32 w (b0 + 256 * b1 + 65536 * b2 + 16777216 * b3) =
      b3 + 256 * b2 + 65536 * b1 + 16777216 * b0 := by
  rw [swap_32_arith _ _ hw]
  omega

/-- On a system of either byte order, with `ACR_IS_BIG_ENDIAN` decided by the
dynamic test, the bytes written to memory for `ACR_BYTE_ORDER_16(x)` are the high
byte of `x` followed by its low byte. -/
theorem byte_order_16_layout (order : SystemByteOrder) (x : Nat) (hx : x < 65536) :
    storeShort order (ACR_BYTE_ORDER_16 (ACR_IS_BIG_ENDIAN order) x) = [x / 256, x % 256] := by
  obtain ⟨b0, b1, h0, h1, rfl⟩ :
      ∃ b0 b1, b0 < 256 ∧ b1 < 256 ∧ x = b0 + 256 * b1 :=
    ⟨x % 256, x / 256, by omega, by omega, by omega⟩
  have q1 : (b0 + 256 * b1) / 256 = b1 := by omega
  have q2 : (b0 + 256 * b1) % 256 = b0 := by omega
  cases order with
  | leastSignificantFirst =>
    have hflag : ACR_IS_BIG_ENDIAN SystemByteOrder.leastSignificantFirst = ACR_BOOL_FALSE := by
      decide
    simp only [ACR_BYTE_ORDER_16, if_pos hflag, storeShort, swap_16_bytes _ _ h0 h1]
    have e1 : (b1 + 256 * b0) % 256 = b1 := by omega
    have e2 : (b1 + 256 * b0) / 256 % 256 = b0 := by omega
    rw [e1, e2, q1, q2]
  | mostSignificantFirst =>
    have hflag : ACR_IS_BIG_ENDIAN SystemByteOrder.mostSignificantFirst ≠ ACR_BOOL_FALSE := by
      decide
    simp only [ACR_BYTE_ORDER_16, if_neg hflag, storeShort]
    have e1 : (b0 + 256 * b1) / 256 % 256 = b1 := by omega
    rw [e1, q1, q2]

theorem swap_16_bytes_rest (b0 b1 rest : Nat) (h0 : b0 < 256) (h1 : b1 < 256) :
    ACR_BYTE_ORDER_SWAP_16 (b0 + 256 * b1 + 65536 * rest) = b1 + 256 * b0 := by
  rw [swap_16_arith]
  omega

theorem swap_32_bytes_rest (w b0 b1 b2 b3 rest : Nat) (hw : w = 32 ∨ w = 64)
    (h0 : b0 < 256) (h1 : b1 < 256) (h2 : b2 < 256) (h3 : b3 < 256) :
    ACR_BYTE_ORDER_SWAP_32 w
        (b0 + 256 * b1 + 65536 * b2 + 16777216 * b3 + 4294967296 * rest) =
      b3 + 256 * b2 + 65536 * b1 + 16777216 * b0 := by
  rw [swap_32_arith _ _ hw]
  omega

/-- Every natural number splits into its four low-order bytes and the rest. -/
theorem four_bytes_and_rest (x : Nat) :
    ∃ b0 b1 b2 b3 rest, b0 < 256 ∧ b1 < 256 ∧ b2 < 256 ∧ b3 < 256 ∧
      x = b0 + 256 * b1 + 65536 * b2 + 16777216 * b3 + 4294967296 * rest :=
  ⟨x % 256, x / 256 % 256, x / 65536 % 256, x / 16777216 % 256, x / 4294967296,
    by omega, by omega, by omega, by omega, by omega⟩

/-- The integer values of the info enumerators are pairwise different. -/
theorem info_value_injective (a b : ACR_Info_t) (h : a.value = b.value) : a = b := by
  have := congrArg ACR_Info_t.ofNat h
  simpa [ACR_Info_t.value, ACR_Info_t.ofNat_toCtorIdx] using this

/-! ## Simple buffer -/

/-- C1: `ACR_BUFFER_ALLOC(buffer, n)` is all or nothing. When `malloc` answers
with memory the buffer afterwards points at that memory with `m_Length = n`;
when it answers null the buffer afterwards has a null pointer and length 0.
The buffer afterwards is the same whatever the buffer was before. -/
theorem buffer_alloc_all_or_nothing (name : ACR_Buffer_t) (n answer : Nat) :
    (answer ≠ ACR_NULL →
        (ACR_BUFFER_ALLOC name n answer).1.m_Pointer = answer ∧
        (ACR_BUFFER_ALLOC name n answer).1.m_Length = n) ∧
    (answer = ACR_NULL →
        (ACR_BUFFER_ALLOC name n answer).1.m_Pointer = ACR_NULL ∧
        (ACR_BUFFER_ALLOC name n answer).1.m_Length = 0) ∧
    (∀ other : ACR_Buffer_t,
        (ACR_BUFFER_ALLOC other n answer).1 = (ACR_BUFFER_ALLOC name n answer).1) := by
  refine ⟨fun h => ?_, fun h => ?_, fun other => ?_⟩
  · simp [buffer_alloc_fst, h]
  · simp [buffer_alloc_fst, h]
  · simp [buffer_alloc_fst]

/-- Witness for C1: a buffer that already owns memory at 64 is asked for 5000
bytes, once answered with memory at 4096 and once answered with null. -/
theorem buffer_alloc_all_or_nothing_witness :
    ((ACR_BUFFER_ALLOC ⟨64, 16⟩ 5000 4096).1.m_Pointer = 4096 ∧
      (ACR_BUFFER_ALLOC ⟨64, 16⟩ 5000 4096).1.m_Length = 5000) ∧
    ((ACR_BUFFER_ALLOC ⟨64, 16⟩ 5000 ACR_NULL).1.m_Pointer = ACR_NULL ∧
      (ACR_BUFFER_ALLOC ⟨64, 16⟩ 5000 ACR_NULL).1.m_Length = 0) ∧
    (ACR_BUFFER_ALLOC ACR_BUFFER 5000 4096).1 = (ACR_BUFFER_ALLOC ⟨64, 16⟩ 5000 4096).1 :=
  ⟨(buffer_alloc_all_or_nothing ⟨64, 16⟩ 5000 4096).1 (by decide),
   (buffer_alloc_all_or_nothing ⟨64, 16⟩ 5000 ACR_NULL).2.1 rfl,
   (buffer_alloc_all_or_nothing ⟨64, 16⟩ 5000 4096).2.2 ACR_BUFFER⟩

/-- C2: on the empty buffer declared by `ACR_BUFFER`, `ACR_BUFFER_ALLOC(buffer, n)`
followed by `ACR_BUFFER_FREE(buffer)` leaves `ACR_BUFFER_GET_LENGTH(buffer) = 0`
and a null `m_Pointer`, for every `n` and every answer of `malloc`. -/
theorem buffer_alloc_then_free_empty (n answer : Nat) :
    ACR_BUFFER_GET_LENGTH (ACR_BUFFER_FREE (ACR_BUFFER_ALLOC ACR_BUFFER n answer).1).1 = 0 ∧
    (ACR_BUFFER_FREE (ACR_BUFFER_ALLOC ACR_BUFFER n answer).1).1.m_Pointer = ACR_NULL := by
  simp [buffer_free_fst, ACR_BUFFER_GET_LENGTH]

/-- C3, counterexample: from the empty buffer, one `ACR_BUFFER_REFERENCE` of
non-null memory with length 0, or one `ACR_BUFFER_ALLOC` of 0 bytes that
`malloc` answers with memory, leaves `m_Length = 0` with a non-null
`m_Pointer`, so `m_Length == 0` iff `m_Pointer` null fails. -/
theorem buffer_invariant_counterexample :
    ¬ ((runBufferOps [BufferOp.reference 4096 0] ACR_BUFFER).m_Length = 0 ↔
        (runBufferOps [BufferOp.reference 4096 0] ACR_BUFFER).m_Pointer = ACR_NULL) ∧
    ¬ ((runBufferOps [BufferOp.alloc 0 4096] ACR_BUFFER).m_Length = 0 ↔
        (runBufferOps [BufferOp.alloc 0 4096] ACR_BUFFER).m_Pointer = ACR_NULL) := by
  decide

/-- C3, amended: from the empty buffer declared by `ACR_BUFFER`, after every
sequence of `ACR_BUFFER_ALLOC`, `ACR_BUFFER_REFERENCE` and `ACR_BUFFER_FREE`, a
null `m_Pointer` implies `m_Length = 0`; and `m_Length = 0` iff `m_Pointer` null
holds exactly when the last operation of the sequence did not bind a non-null
pointer with length 0 (an allocation of 0 bytes answered with memory, or a
reference to non-null memory with length 0). -/
theorem buffer_invariant_amended (ops : List BufferOp) :
    ((runBufferOps ops ACR_BUFFER).m_Pointer = ACR_NULL →
        (runBufferOps ops ACR_BUFFER).m_Length = 0) ∧
    (((runBufferOps ops ACR_BUFFER).m_Length = 0 ↔
        (runBufferOps ops ACR_BUFFER).m_Pointer = ACR_NULL) ↔
      ∀ op, ops.getLast? = some op → op.bindsZeroLength = false) := by
  rcases List.eq_nil_or_concat ops with h | ⟨init, op, h⟩
  · subst h
    simp [runBufferOps, ACR_BUFFER, ACR_EMPTY_VALUE, ACR_NULL]
  · subst h
    rw [List.concat_eq_append, runBufferOps_snoc]
    cases op with
    | alloc length answer =>
      by_cases ha : answer = ACR_NULL <;> by_cases hl : length = 0 <;>
        simp [BufferOp.run, buffer_alloc_fst, BufferOp.bindsZeroLength, ha, hl]
    | reference memory length =>
      by_cases ha : memory = ACR_NULL <;> by_cases hl : length = 0 <;>
        simp [BufferOp.run, buffer_reference_fst, BufferOp.bindsZeroLength, ha, hl]
    | release =>
      simp [BufferOp.run, buffer_free_fst, BufferOp.bindsZeroLength]

/-- Witness for C3 amended: a failed allocation of 5000 bytes ends with length
0, and an allocation of 5000 bytes followed by a free satisfies the iff. -/
theorem buffer_invariant_amended_witness :
    (runBufferOps [BufferOp.alloc 5000 ACR_NULL] ACR_BUFFER).m_Length = 0 ∧
    ((runBufferOps [BufferOp.alloc 5000 4096, BufferOp.release] ACR_BUFFER).m_Length = 0 ↔
      (runBufferOps [BufferOp.alloc 5000 4096, BufferOp.release] ACR_BUFFER).m_Pointer
        = ACR_NULL) :=
  ⟨(buffer_invariant_amended [BufferOp.alloc 5000 ACR_NULL]).1 (by decide),
   (buffer_invariant_amended [BufferOp.alloc 5000 4096, BufferOp.release]).2.2
     (by intro op h; simp at h; subst h; rfl)⟩

/-- C4: `ACR_BUFFER_REFERENCE(buffer, p, L)` sets `m_Pointer` to `p`, sets
`m_Length` to 0 when `p` is null and to `L` otherwise, and makes no call to
`malloc` or `free`. -/
theorem buffer_reference_effect (name : ACR_Buffer_t) (p L : Nat) :
    (ACR_BUFFER_REFERENCE name p L).1.m_Pointer = p ∧
    (p = ACR_NULL → (ACR_BUFFER_REFERENCE name p L).1.m_Length = 0) ∧
    (p ≠ ACR_NULL → (ACR_BUFFER_REFERENCE name p L).1.m_Length = L) ∧
    (ACR_BUFFER_REFERENCE name p L).2 = [] := by
  refine ⟨?_, fun h => ?_, fun h => ?_, ?_⟩
  · simp [buffer_reference_fst]
  · simp [buffer_reference_fst, h]
  · simp [buffer_reference_fst, h]
  · unfold ACR_BUFFER_REFERENCE
    by_cases h : p = ACR_NULL <;> simp [h]

/-- Witness for C4: a null pointer paired with length 7, and memory at 4096
paired with length 7, both referenced from a buffer that held memory at 64. -/
theorem buffer_reference_effect_witness :
    (ACR_BUFFER_REFERENCE ⟨64, 16⟩ ACR_NULL 7).1.m_Length = 0 ∧
    (ACR_BUFFER_REFERENCE ⟨64, 16⟩ 4096 7).1.m_Length = 7 :=
  ⟨(buffer_reference_effect ⟨64, 16⟩ ACR_NULL 7).2.1 rfl,
   (buffer_reference_effect ⟨64, 16⟩ 4096 7).2.2.1 (by decide)⟩

/-- C5: `ACR_BUFFER_FREE` is idempotent. Applied once to any buffer it yields
the null pointer with length 0; applied again it leaves that buffer as it is
and makes no call to `free`. -/
theorem buffer_free_idempotent (name : ACR_Buffer_t) :
    (ACR_BUFFER_FREE name).1 = ⟨ACR_NULL, 0⟩ ∧
    (ACR_BUFFER_FREE (ACR_BUFFER_FREE name).1).1 = (ACR_BUFFER_FREE name).1 ∧
    (ACR_BUFFER_FREE (ACR_BUFFER_FREE name).1).2 = [] := by
  refine ⟨buffer_free_fst name, ?_, ?_⟩
  · simp [buffer_free_fst]
  · rw [buffer_free_fst]
    simp [ACR_BUFFER_FREE]

/-! ## Variable length buffer -/

/-- C6: when `n <= m_Buffer.m_Length`, `ACR_VAR_BUFFER_ALLOC(buffer, n)` sets the
used length `m_Length` to `n`, leaves `m_Buffer.m_Pointer` and
`m_Buffer.m_Length` as they were, and calls neither `malloc` nor `free`. -/
theorem var_buffer_alloc_within_capacity (name : ACR_VarBuffer_t) (n answer : Nat)
    (h : n ≤ name.m_Buffer.m_Length) :
    (ACR_VAR_BUFFER_ALLOC name n answer).1.m_Length = n ∧
    (ACR_VAR_BUFFER_ALLOC name n answer).1.m_Buffer.m_Pointer = name.m_Buffer.m_Pointer ∧
    (ACR_VAR_BUFFER_ALLOC name n answer).1.m_Buffer.m_Length = name.m_Buffer.m_Length ∧
    (ACR_VAR_BUFFER_ALLOC name n answer).2 = [] := by
  simp [var_buffer_alloc_fits name n answer h]

/-- Witness for C6: the header's example, 1 byte used out of a capacity of 32. -/
theorem var_buffer_alloc_within_capacity_witness :
    (1 : Nat) ≤ (⟨⟨4096, 32⟩, 32⟩ : ACR_VarBuffer_t).m_Buffer.m_Length ∧
    (ACR_VAR_BUFFER_ALLOC ⟨⟨4096, 32⟩, 32⟩ 1 8192).1.m_Length = 1 ∧
    (ACR_VAR_BUFFER_ALLOC ⟨⟨4096, 32⟩, 32⟩ 1 8192).1.m_Buffer.m_Pointer = 4096 ∧
    (ACR_VAR_BUFFER_ALLOC ⟨⟨4096, 32⟩, 32⟩ 1 8192).1.m_Buffer.m_Length = 32 ∧
    (ACR_VAR_BUFFER_ALLOC ⟨⟨4096, 32⟩, 32⟩ 1 8192).2 = [] :=
  ⟨by decide, var_buffer_alloc_within_capacity ⟨⟨4096, 32⟩, 32⟩ 1 8192 (by decide)⟩

/-- C7: when `n > m_Buffer.m_Length`, `ACR_VAR_BUFFER_ALLOC(buffer, n)` frees the
old allocation if the old pointer is non-null and then calls `malloc(n)`, and
nothing else. Afterwards the capacity `m_Buffer.m_Length` is `n` (pointer: the
memory `malloc` returned) if `malloc` succeeded and 0 with a null pointer if it
failed, and the used length `m_Length` equals that capacity in both cases. -/
theorem var_buffer_alloc_beyond_capacity (name : ACR_VarBuffer_t) (n answer : Nat)
    (h : name.m_Buffer.m_Length < n) :
    (ACR_VAR_BUFFER_ALLOC name n answer).2 =
      (if name.m_Buffer.m_Pointer = ACR_NULL then []
        else [MemCall.free name.m_Buffer.m_Pointer]) ++ [MemCall.malloc n] ∧
    (answer ≠ ACR_NULL →
      (ACR_VAR_BUFFER_ALLOC name n answer).1.m_Buffer.m_Length = n ∧
      (ACR_VAR_BUFFER_ALLOC name n answer).1.m_Buffer.m_Pointer = answer) ∧
    (answer = ACR_NULL →
      (ACR_VAR_BUFFER_ALLOC name n answer).1.m_Buffer.m_Length = 0 ∧
      (ACR_VAR_BUFFER_ALLOC name n answer).1.m_Buffer.m_Pointer = ACR_NULL) ∧
    (ACR_VAR_BUFFER_ALLOC name n answer).1.m_Length =
      (ACR_VAR_BUFFER_ALLOC name n answer).1.m_Buffer.m_Length := by
  rw [var_buffer_alloc_grows name n answer h]
  refine ⟨rfl, fun ha => ?_, fun ha => ?_, rfl⟩
  · simp [ha]
  · simp [ha]

/-- Witness for C7: a buffer holding 32 bytes at 4096 is asked for 64 bytes,
once answered with memory at 8192 and once with null. -/
theorem var_buffer_alloc_beyond_capacity_witness :
    (ACR_VAR_BUFFER_ALLOC ⟨⟨4096, 32⟩, 1⟩ 64 8192).2
      = [MemCall.free 4096, MemCall.malloc 64] ∧
    (ACR_VAR_BUFFER_ALLOC ⟨⟨4096, 32⟩, 1⟩ 64 8192).1.m_Buffer.m_Length = 64 ∧
    (ACR_VAR_BUFFER_ALLOC ⟨⟨4096, 32⟩, 1⟩ 64 ACR_NULL).1.m_Buffer.m_Length = 0 ∧
    (ACR_VAR_BUFFER_ALLOC ⟨⟨4096, 32⟩, 1⟩ 64 ACR_NULL).1.m_Length = 0 :=
  ⟨(var_buffer_alloc_beyond_capacity ⟨⟨4096, 32⟩, 1⟩ 64 8192 (by decide)).1,
   ((var_buffer_alloc_beyond_capacity ⟨⟨4096, 32⟩, 1⟩ 64 8192 (by decide)).2.1
      (by decide)).1,
   ((var_buffer_alloc_beyond_capacity ⟨⟨4096, 32⟩, 1⟩ 64 ACR_NULL (by decide)).2.2.1
      rfl).1,
   by
     have h := (var_buffer_alloc_beyond_capacity ⟨⟨4096, 32⟩, 1⟩ 64 ACR_NULL
       (by decide)).2.2.2
     rw [h]
     decide⟩

/-- C8: from the empty variable buffer declared by `ACR_VAR_BUFFER`, after every
sequence of `ACR_VAR_BUFFER_ALLOC` and `ACR_VAR_BUFFER_FREE` (any requested
lengths, any answers of `malloc`), `m_Length <= m_Buffer.m_Length`. -/
theorem var_buffer_used_le_capacity (ops : List VarBufferOp) :
    (runVarBufferOps ops ACR_VAR_BUFFER).m_Length ≤
      (runVarBufferOps ops ACR_VAR_BUFFER).m_Buffer.m_Length :=
  run_var_buffer_ops_le ops

/-- C9, counterexample: with `n1 = 1 <= n2 = 2` and the second call's `malloc`
failing, the second call leaves capacity 0. If the third call's `malloc` also
fails the sequence ends with used length 0, not `n1`; if it succeeds the third
call does reallocate, and the capacity it leaves is not the one left by the
second call. -/
theorem var_buffer_resize_sequence_counterexample :
    (runVarBufferOps [VarBufferOp.alloc 1 4096, VarBufferOp.alloc 2 ACR_NULL,
        VarBufferOp.alloc 1 ACR_NULL] ACR_VAR_BUFFER).m_Length ≠ 1 ∧
    (ACR_VAR_BUFFER_ALLOC
        (runVarBufferOps [VarBufferOp.alloc 1 4096, VarBufferOp.alloc 2 ACR_NULL]
          ACR_VAR_BUFFER) 1 8192).2 = [MemCall.malloc 1] ∧
    (runVarBufferOps [VarBufferOp.alloc 1 4096, VarBufferOp.alloc 2 ACR_NULL,
        VarBufferOp.alloc 1 8192] ACR_VAR_BUFFER).m_Buffer ≠
      (runVarBufferOps [VarBufferOp.alloc 1 4096, VarBufferOp.alloc 2 ACR_NULL]
        ACR_VAR_BUFFER).m_Buffer ∧
    (runVarBufferOps [VarBufferOp.alloc 1 4096, VarBufferOp.alloc 2 ACR_NULL]
        ACR_VAR_BUFFER).m_Buffer.m_Length ≠ 2 := by
  decide

/-- C9, amended: for all `n1 <= n2`, starting from the empty variable buffer, if
the second call `ACR_VAR_BUFFER_ALLOC(buf, n2)` applies the length it was asked
for (used length `n2` after it, that is, no allocation failure has emptied the
buffer), then the third call `ACR_VAR_BUFFER_ALLOC(buf, n1)` ends with used
length `n1`, calls neither `malloc` nor `free`, and leaves the capacity pointer
and capacity length exactly as the second call left them, with capacity `n2`. -/
theorem var_buffer_resize_sequence (n1 n2 a1 a2 a3 : Nat) (h : n1 ≤ n2)
    (h2 : (runVarBufferOps [VarBufferOp.alloc n1 a1, VarBufferOp.alloc n2 a2]
            ACR_VAR_BUFFER).m_Length = n2) :
    (runVarBufferOps [VarBufferOp.alloc n1 a1, VarBufferOp.alloc n2 a2,
        VarBufferOp.alloc n1 a3] ACR_VAR_BUFFER).m_Length = n1 ∧
    (ACR_VAR_BUFFER_ALLOC
        (runVarBufferOps [VarBufferOp.alloc n1 a1, VarBufferOp.alloc n2 a2]
          ACR_VAR_BUFFER) n1 a3).2 = [] ∧
    (runVarBufferOps [VarBufferOp.alloc n1 a1, VarBufferOp.alloc n2 a2,
        VarBufferOp.alloc n1 a3] ACR_VAR_BUFFER).m_Buffer =
      (runVarBufferOps [VarBufferOp.alloc n1 a1, VarBufferOp.alloc n2 a2]
        ACR_VAR_BUFFER).m_Buffer ∧
    (runVarBufferOps [VarBufferOp.alloc n1 a1, VarBufferOp.alloc n2 a2]
        ACR_VAR_BUFFER).m_Buffer.m_Length = n2 := by
  have hsnoc : runVarBufferOps [VarBufferOp.alloc n1 a1, VarBufferOp.alloc n2 a2,
        VarBufferOp.alloc n1 a3] ACR_VAR_BUFFER =
      (ACR_VAR_BUFFER_ALLOC
        (runVarBufferOps [VarBufferOp.alloc n1 a1, VarBufferOp.alloc n2 a2]
          ACR_VAR_BUFFER) n1 a3).1 :=
    runVarBufferOps_snoc [VarBufferOp.alloc n1 a1, VarBufferOp.alloc n2 a2]
      (VarBufferOp.alloc n1 a3) ACR_VAR_BUFFER
  have hle := run_var_buffer_ops_le
    [VarBufferOp.alloc n1 a1, VarBufferOp.alloc n2 a2]
  have hcap : (runVarBufferOps [VarBufferOp.alloc n1 a1, VarBufferOp.alloc n2 a2]
      ACR_VAR_BUFFER).m_Buffer.m_Length ≤ n2 := by
    have hs : runVarBufferOps [VarBufferOp.alloc n1 a1, VarBufferOp.alloc n2 a2]
          ACR_VAR_BUFFER =
        (ACR_VAR_BUFFER_ALLOC (ACR_VAR_BUFFER_ALLOC ACR_VAR_BUFFER n1 a1).1 n2 a2).1 := rfl
    rw [hs]
    have h1 : (ACR_VAR_BUFFER_ALLOC ACR_VAR_BUFFER n1 a1).1.m_Buffer.m_Length ≤ n1 := by
      by_cases hz : ACR_VAR_BUFFER.m_Buffer.m_Length < n1
      · rw [var_buffer_alloc_grows _ _ _ hz]
        by_cases ha : a1 = ACR_NULL <;> simp [ha]
      · have hz2 : n1 ≤ ACR_VAR_BUFFER.m_Buffer.m_Length := Nat.not_lt.mp hz
        rw [var_buffer_alloc_fits _ _ _ hz2]
        simp [ACR_VAR_BUFFER] at hz2 ⊢
    by_cases hg : (ACR_VAR_BUFFER_ALLOC ACR_VAR_BUFFER n1 a1).1.m_Buffer.m_Length < n2
    · rw [var_buffer_alloc_grows _ _ _ hg]
      by_cases ha : a2 = ACR_NULL <;> simp [ha]
    · have hg2 := Nat.not_lt.mp hg
      rw [var_buffer_alloc_fits _ _ _ hg2]
      exact le_trans h1 h
  have heq : (runVarBufferOps [VarBufferOp.alloc n1 a1, VarBufferOp.alloc n2 a2]
      ACR_VAR_BUFFER).m_Buffer.m_Length = n2 :=
    le_antisymm hcap (by rw [h2] at hle; exact hle)
  have hfit : n1 ≤ (runVarBufferOps [VarBufferOp.alloc n1 a1, VarBufferOp.alloc n2 a2]
      ACR_VAR_BUFFER).m_Buffer.m_Length := by rw [heq]; exact h
  rw [hsnoc, var_buffer_alloc_fits _ n1 a3 hfit]
  exact ⟨rfl, rfl, rfl, heq⟩

/-- Witness for C9 amended: the header's example sizes reversed, 1 byte, then
32 bytes, then 1 byte again, every `malloc` answered with memory. -/
theorem var_buffer_resize_sequence_witness :
    (runVarBufferOps [VarBufferOp.alloc 1 4096, VarBufferOp.alloc 32 8192,
        VarBufferOp.alloc 1 12288] ACR_VAR_BUFFER).m_Length = 1 ∧
    (ACR_VAR_BUFFER_ALLOC
        (runVarBufferOps [VarBufferOp.alloc 1 4096, VarBufferOp.alloc 32 8192]
          ACR_VAR_BUFFER) 1 12288).2 = [] ∧
    (runVarBufferOps [VarBufferOp.alloc 1 4096, VarBufferOp.alloc 32 8192,
        VarBufferOp.alloc 1 12288] ACR_VAR_BUFFER).m_Buffer =
      (runVarBufferOps [VarBufferOp.alloc 1 4096, VarBufferOp.alloc 32 8192]
        ACR_VAR_BUFFER).m_Buffer ∧
    (runVarBufferOps [VarBufferOp.alloc 1 4096, VarBufferOp.alloc 32 8192]
        ACR_VAR_BUFFER).m_Buffer.m_Length = 32 :=
  var_buffer_resize_sequence 1 32 4096 8192 12288 (by decide) (by decide)

/-- C10, counterexample: a request for length 0 gives used length 0 although no
allocation was attempted (no call to `malloc`), here on a buffer of capacity 32
and with a `malloc` that would have answered null. -/
theorem var_buffer_zero_signal_counterexample :
    (ACR_VAR_BUFFER_ALLOC ⟨⟨4096, 32⟩, 2⟩ 0 ACR_NULL).1.m_Length = 0 ∧
    (ACR_VAR_BUFFER_ALLOC ⟨⟨4096, 32⟩, 2⟩ 0 ACR_NULL).2 = [] ∧
    ¬ ((ACR_VAR_BUFFER_ALLOC ⟨⟨4096, 32⟩, 2⟩ 0 ACR_NULL).1.m_Length = 0 ↔
        (MemCall.malloc 0 ∈ (ACR_VAR_BUFFER_ALLOC ⟨⟨4096, 32⟩, 2⟩ 0 ACR_NULL).2 ∧
          ACR_NULL = ACR_NULL)) := by
  decide

/-- C10, amended: for every variable buffer state and requested length `n`, the
used length `m_Length` after `ACR_VAR_BUFFER_ALLOC(buffer, n)` is 0 if and only
if `n` is 0 or an allocation was attempted (`malloc(n)` was called) and failed
(answered null); when an allocation was attempted and failed the capacity
`m_Buffer.m_Length` is 0 as well. -/
theorem var_buffer_zero_signal (name : ACR_VarBuffer_t) (n answer : Nat) :
    ((ACR_VAR_BUFFER_ALLOC name n answer).1.m_Length = 0 ↔
      (n = 0 ∨
        (MemCall.malloc n ∈ (ACR_VAR_BUFFER_ALLOC name n answer).2 ∧ answer = ACR_NULL))) ∧
    ((MemCall.malloc n ∈ (ACR_VAR_BUFFER_ALLOC name n answer).2 ∧ answer = ACR_NULL) →
      (ACR_VAR_BUFFER_ALLOC name n answer).1.m_Buffer.m_Length = 0) := by
  by_cases hg : name.m_Buffer.m_Length < n
  · rw [var_buffer_alloc_grows name n answer hg]
    have hn : n ≠ 0 := Nat.not_eq_zero_of_lt hg
    by_cases ha : answer = ACR_NULL <;> simp [ha, hn]
  · rw [var_buffer_alloc_fits name n answer (Nat.not_lt.mp hg)]
    simp

/-- Witness for C10 amended: a failed growth from capacity 32 to 64 empties the
capacity. -/
theorem var_buffer_zero_signal_witness :
    (ACR_VAR_BUFFER_ALLOC ⟨⟨4096, 32⟩, 2⟩ 64 ACR_NULL).1.m_Length = 0 ∧
    (ACR_VAR_BUFFER_ALLOC ⟨⟨4096, 32⟩, 2⟩ 64 ACR_NULL).1.m_Buffer.m_Length = 0 :=
  ⟨(var_buffer_zero_signal ⟨⟨4096, 32⟩, 2⟩ 64 ACR_NULL).1.mpr (Or.inr (by decide)),
   (var_buffer_zero_signal ⟨⟨4096, 32⟩, 2⟩ 64 ACR_NULL).2 (by decide)⟩

/-! ## UTF8 byte count -/

set_option maxRecDepth 20000 in
/-- C11: for every byte `c` in 0..255, `ACR_UTF8_BYTE_COUNT(c)` is 1 if the top
bit of `c` is 0 (`0xxxxxxx`), 2 if `c` matches `110xxxxx`, 3 if `c` matches
`1110xxxx` and 4 if `c` matches `1111xxxx`. -/
theorem utf8_byte_count_by_lead_bits (c : Nat) (hc : c < 256) :
    (c &&& 0b10000000 = 0 → ACR_UTF8_BYTE_COUNT c = 1) ∧
    (c &&& 0b11100000 = 0b11000000 → ACR_UTF8_BYTE_COUNT c = 2) ∧
    (c &&& 0b11110000 = 0b11100000 → ACR_UTF8_BYTE_COUNT c = 3) ∧
    (c &&& 0b11110000 = 0b11110000 → ACR_UTF8_BYTE_COUNT c = 4) := by
  revert c
  decide

/-- Witness for C11: the lead bytes 0x41, 0xC3, 0xE4 and 0xF0. -/
theorem utf8_byte_count_by_lead_bits_witness :
    ACR_UTF8_BYTE_COUNT 0x41 = 1 ∧ ACR_UTF8_BYTE_COUNT 0xC3 = 2 ∧
    ACR_UTF8_BYTE_COUNT 0xE4 = 3 ∧ ACR_UTF8_BYTE_COUNT 0xF0 = 4 :=
  ⟨(utf8_byte_count_by_lead_bits 0x41 (by decide)).1 (by decide),
   (utf8_byte_count_by_lead_bits 0xC3 (by decide)).2.1 (by decide),
   (utf8_byte_count_by_lead_bits 0xE4 (by decide)).2.2.1 (by decide),
   (utf8_byte_count_by_lead_bits 0xF0 (by decide)).2.2.2 (by decide)⟩

/-! ## Decimal comparison -/

/-- C17: over exact arithmetic, `ACR_DECIMAL_TOLERANCE_COMPARE(a, b, t)` is
`ACR_INFO_GREATER` if `a - t > b`, otherwise `ACR_INFO_LESS` if `a + t < b`,
otherwise `ACR_INFO_EQUAL`; `ACR_DECIMAL_COMPARE(a, b)` is the same with
`t = 0.0001`. With tolerance 0.0001, 1.00001 against 1.00002 is
`ACR_INFO_EQUAL` and 1.0 against 1.1 is `ACR_INFO_LESS`. -/
theorem decimal_tolerance_compare_cases (a b t : ℚ) :
    (a - t > b → ACR_DECIMAL_TOLERANCE_COMPARE a b t = ACR_INFO_GREATER) ∧
    (¬ a - t > b → a + t < b → ACR_DECIMAL_TOLERANCE_COMPARE a b t = ACR_INFO_LESS) ∧
    (¬ a - t > b → ¬ a + t < b → ACR_DECIMAL_TOLERANCE_COMPARE a b t = ACR_INFO_EQUAL) ∧
    ACR_DECIMAL_COMPARE a b = ACR_DECIMAL_TOLERANCE_COMPARE a b (1 / 10000) ∧
    ACR_DECIMAL_TOLERANCE_COMPARE (100001 / 100000) (100002 / 100000) (1 / 10000)
      = ACR_INFO_EQUAL ∧
    ACR_DECIMAL_TOLERANCE_COMPARE 1 (11 / 10) (1 / 10000) = ACR_INFO_LESS := by
  refine ⟨fun h => ?_, fun h1 h2 => ?_, fun h1 h2 => ?_, rfl, ?_, ?_⟩
  · simp [ACR_DECIMAL_TOLERANCE_COMPARE, h]
  · simp [ACR_DECIMAL_TOLERANCE_COMPARE, h1, h2]
  · simp [ACR_DECIMAL_TOLERANCE_COMPARE, h1, h2]
  · unfold ACR_DECIMAL_TOLERANCE_COMPARE
    norm_num
  · unfold ACR_DECIMAL_TOLERANCE_COMPARE
    norm_num

/-- Witness for C17: 2 against 1 with tolerance 1/2 is greater, 1 against 2 is
less, and 1 against 1 is equal. -/
theorem decimal_tolerance_compare_cases_witness :
    ACR_DECIMAL_TOLERANCE_COMPARE 2 1 (1 / 2) = ACR_INFO_GREATER ∧
    ACR_DECIMAL_TOLERANCE_COMPARE 1 2 (1 / 2) = ACR_INFO_LESS ∧
    ACR_DECIMAL_TOLERANCE_COMPARE 1 1 (1 / 2) = ACR_INFO_EQUAL :=
  ⟨(decimal_tolerance_compare_cases 2 1 (1 / 2)).1 (by norm_num),
   (decimal_tolerance_compare_cases 1 2 (1 / 2)).2.1 (by norm_num) (by norm_num),
   (decimal_tolerance_compare_cases 1 1 (1 / 2)).2.2.1 (by norm_num) (by norm_num)⟩

/-- C18: over exact arithmetic and for every tolerance `t >= 0`,
`ACR_DECIMAL_TOLERANCE_COMPARE(a, b, t)` is `ACR_INFO_EQUAL` if and only if
`|a - b| <= t`; it is `ACR_INFO_LESS` only when `a < b` and `ACR_INFO_GREATER`
only when `a > b`. -/
theorem decimal_tolerance_compare_band (a b t : ℚ) (ht : 0 ≤ t) :
    (ACR_DECIMAL_TOLERANCE_COMPARE a b t = ACR_INFO_EQUAL ↔ |a - b| ≤ t) ∧
    (ACR_DECIMAL_TOLERANCE_COMPARE a b t = ACR_INFO_LESS → a < b) ∧
    (ACR_DECIMAL_TOLERANCE_COMPARE a b t = ACR_INFO_GREATER → a > b) := by
  unfold ACR_DECIMAL_TOLERANCE_COMPARE
  by_cases h1 : a - t > b
  · rw [if_pos h1]
    refine ⟨⟨fun h => ?_, fun h => ?_⟩, fun h => ?_, fun _ => ?_⟩
    · exact absurd h (by decide)
    · have := (abs_le.mp h).2
      linarith
    · exact absurd h (by decide)
    · linarith
  · rw [if_neg h1]
    by_cases h2 : a + t < b
    · rw [if_pos h2]
      refine ⟨⟨fun h => ?_, fun h => ?_⟩, fun _ => ?_, fun h => ?_⟩
      · exact absurd h (by decide)
      · have := (abs_le.mp h).1
        linarith
      · linarith
      · exact absurd h (by decide)
    · rw [if_neg h2]
      refine ⟨⟨fun _ => ?_, fun _ => rfl⟩, fun h => ?_, fun h => ?_⟩
      · rw [abs_le]
        constructor <;> linarith
      · exact absurd h (by decide)
      · exact absurd h (by decide)

/-- Witness for C18: values 1/20000 apart are equal within tolerance 1/10000,
and 1 against 2 is less. -/
theorem decimal_tolerance_compare_band_witness :
    ACR_DECIMAL_TOLERANCE_COMPARE 1 (20001 / 20000) (1 / 10000) = ACR_INFO_EQUAL ∧
    (1 : ℚ) < 2 :=
  ⟨(decimal_tolerance_compare_band 1 (20001 / 20000) (1 / 10000) (by norm_num)).1.mpr
      (by rw [abs_le]; constructor <;> norm_num),
   (decimal_tolerance_compare_band 1 2 (1 / 10000) (by norm_num)).2.1
      (by unfold ACR_DECIMAL_TOLERANCE_COMPARE; norm_num)⟩

/-! ## Byte order -/

/-- C19: byte-order conversion is its own inverse. For every value of
`ACR_IS_BIG_ENDIAN` (big-endian or little-endian configuration),
`ACR_BYTE_ORDER_16(ACR_BYTE_ORDER_16(x)) == x` for every 16-bit `x`, and
`ACR_BYTE_ORDER_32(ACR_BYTE_ORDER_32(x)) == x` for every 32-bit `x`, with
`unsigned long` of 32 or of 64 bits. -/
theorem byte_order_involution (isBigEndian : Nat) :
    (∀ x, x < 2 ^ 16 →
      ACR_BYTE_ORDER_16 isBigEndian (ACR_BYTE_ORDER_16 isBigEndian x) = x) ∧
    (∀ longBits x, longBits = 32 ∨ longBits = 64 → x < 2 ^ 32 →
      ACR_BYTE_ORDER_32 longBits isBigEndian (ACR_BYTE_ORDER_32 longBits isBigEndian x) = x) := by
  constructor
  · intro x hx
    by_cases hb : isBigEndian = ACR_BOOL_FALSE
    · norm_num at hx
      obtain ⟨b0, b1, h0, h1, rfl⟩ :
          ∃ b0 b1, b0 < 256 ∧ b1 < 256 ∧ x = b0 + 256 * b1 :=
        ⟨x % 256, x / 256, by omega, by omega, by omega⟩
      simp only [ACR_BYTE_ORDER_16, if_pos hb, swap_16_bytes _ _ h0 h1,
        swap_16_bytes _ _ h1 h0]
    · simp only [ACR_BYTE_ORDER_16, if_neg hb]
  · intro longBits x hw hx
    by_cases hb : isBigEndian = ACR_BOOL_FALSE
    · norm_num at hx
      obtain ⟨b0, b1, b2, b3, h0, h1, h2, h3, rfl⟩ :
          ∃ b0 b1 b2 b3, b0 < 256 ∧ b1 < 256 ∧ b2 < 256 ∧ b3 < 256 ∧
            x = b0 + 256 * b1 + 65536 * b2 + 16777216 * b3 :=
        ⟨x % 256, x / 256 % 256, x / 65536 % 256, x / 16777216,
          by omega, by omega, by omega, by omega, by omega⟩
      simp only [ACR_BYTE_ORDER_32, if_pos hb, swap_32_bytes _ _ _ _ _ hw h0 h1 h2 h3,
        swap_32_bytes _ _ _ _ _ hw h3 h2 h1 h0]
    · simp only [ACR_BYTE_ORDER_32, if_neg hb]

/-- Witness for C19: the 16-bit value 0x1234 and the 32-bit value 0x12345678 on
a little-endian configuration (`ACR_IS_BIG_ENDIAN` 0), and the value 1 on a
big-endian one. -/
theorem byte_order_involution_witness :
    ACR_BYTE_ORDER_16 0 (ACR_BYTE_ORDER_16 0 0x1234) = 0x1234 ∧
    ACR_BYTE_ORDER_32 64 0 (ACR_BYTE_ORDER_32 64 0 0x12345678) = 0x12345678 ∧
    ACR_BYTE_ORDER_16 1 (ACR_BYTE_ORDER_16 1 1) = 1 :=
  ⟨(byte_order_involution 0).1 0x1234 (by decide),
   (byte_order_involution 0).2 64 0x12345678 (Or.inr rfl) (by decide),
   (byte_order_involution 1).1 1 (by decide)⟩

/-- C20, the code at the failing input: on a system of either byte order, with
`ACR_IS_BIG_ENDIAN` decided by the dynamic test, the two bytes written to
memory for `ACR_BYTE_ORDER_16(1)` are `[0x00, 0x01]`, most significant byte
first, and not `[0x01, 0x00]`. -/
theorem byte_order_16_stores_most_significant_first :
    storeShort SystemByteOrder.leastSignificantFirst
      (ACR_BYTE_ORDER_16 (ACR_IS_BIG_ENDIAN SystemByteOrder.leastSignificantFirst) 1)
      = [0x00, 0x01] ∧
    storeShort SystemByteOrder.mostSignificantFirst
      (ACR_BYTE_ORDER_16 (ACR_IS_BIG_ENDIAN SystemByteOrder.mostSignificantFirst) 1)
      = [0x00, 0x01] ∧
    storeShort SystemByteOrder.leastSignificantFirst
      (ACR_BYTE_ORDER_16 (ACR_IS_BIG_ENDIAN SystemByteOrder.leastSignificantFirst) 1)
      ≠ [0x01, 0x00] ∧
    storeShort SystemByteOrder.mostSignificantFirst
      (ACR_BYTE_ORDER_16 (ACR_IS_BIG_ENDIAN SystemByteOrder.mostSignificantFirst) 1)
      ≠ [0x01, 0x00] := by
  decide

/-! ## UTF8 strings -/

/-- C12: for every null-terminated byte sequence scanned through a non-null
pointer with both caps unbounded (`srcLength = ACR_MAX_LENGTH`,
`maxCharacters = ACR_MAX_COUNT`), `ACR_StringFromMemory` returns `m_Count` equal
to the number of UTF-8 sequences found by repeatedly reading a lead byte and
advancing `ACR_UTF8_BYTE_COUNT(lead)` bytes until the null byte, and
`m_Buffer.m_Length` equal to the bytes consumed before that null byte (the
reference count does stop on a null byte). The bytes 41 C3 A9 E4 B8 AD 00 give
`m_Count == 3` and length 6. -/
theorem string_from_memory_counts_sequences (src : Nat) (mem : List Nat)
    (hsrc : src ≠ ACR_NULL) :
    (ACR_StringFromMemory src mem ACR_MAX_LENGTH ACR_MAX_COUNT).m_Count =
      (countUtf8Sequences mem (mem.length + 1) 0 0).2 ∧
    (ACR_StringFromMemory src mem ACR_MAX_LENGTH ACR_MAX_COUNT).m_Buffer.m_Length =
      (countUtf8Sequences mem (mem.length + 1) 0 0).1 ∧
    mem.getD (countUtf8Sequences mem (mem.length + 1) 0 0).1 0 = 0 ∧
    (ACR_StringFromMemory src [0x41, 0xC3, 0xA9, 0xE4, 0xB8, 0xAD, 0x00]
      ACR_MAX_LENGTH ACR_MAX_COUNT).m_Count = 3 ∧
    (ACR_StringFromMemory src [0x41, 0xC3, 0xA9, 0xE4, 0xB8, 0xAD, 0x00]
      ACR_MAX_LENGTH ACR_MAX_COUNT).m_Buffer.m_Length = 6 := by
  have hscan := scanMemory_unbounded mem (mem.length + 1) 0 0
  have hwit := scanMemory_unbounded [0x41, 0xC3, 0xA9, 0xE4, 0xB8, 0xAD, 0x00] 8 0 0
  refine ⟨?_, ?_, countUtf8Sequences_stops_at_null mem _ 0 0 (by omega), ?_, ?_⟩
  · simp only [ACR_StringFromMemory, if_neg hsrc]
    exact hscan.2
  · simp only [ACR_StringFromMemory, if_neg hsrc]
    exact hscan.1
  · simp only [ACR_StringFromMemory, if_neg hsrc, List.length_cons, List.length_nil]
    rw [hwit.2]
    decide
  · simp only [ACR_StringFromMemory, if_neg hsrc, List.length_cons, List.length_nil]
    rw [hwit.1]
    decide

/-- Witness for C12: the string U+0041, U+00E9, U+4E2D at address 4096. -/
theorem string_from_memory_counts_sequences_witness :
    (ACR_StringFromMemory 4096 [0x41, 0xC3, 0xA9, 0xE4, 0xB8, 0xAD, 0x00]
      ACR_MAX_LENGTH ACR_MAX_COUNT).m_Count = 3 ∧
    (ACR_StringFromMemory 4096 [0x41, 0xC3, 0xA9, 0xE4, 0xB8, 0xAD, 0x00]
      ACR_MAX_LENGTH ACR_MAX_COUNT).m_Buffer.m_Length = 6 :=
  (string_from_memory_counts_sequences 4096 [0x41, 0xC3, 0xA9, 0xE4, 0xB8, 0xAD, 0x00]
    (by decide)).2.2.2

/-- C13: truncation safety of `ACR_StringFromMemory`. For every source, every
finite byte limit `L` (a length below the unbounded sentinel `ACR_MAX_LENGTH`)
and every character cap `M`: the scan terminates (a larger iteration bound
gives the same scan), reads no byte at an offset `>= L`, and returns
`m_Buffer.m_Length <= L` and `m_Count <= M`. A lead byte with fewer bytes left
before `L` than its sequence length is counted as exactly one character and
advances only the remaining bytes: the scan ends at `L` having read that lead
byte and nothing after it. -/
theorem string_from_memory_truncation_safe (src : Nat) (mem : List Nat) (L M : Nat)
    (hL : L < ACR_MAX_LENGTH) :
    (∀ extra, scanMemory mem L M (mem.length + 1 + extra) 0 0 =
      scanMemory mem L M (mem.length + 1) 0 0) ∧
    (∀ off ∈ (scanMemory mem L M (mem.length + 1) 0 0).reads, off < L) ∧
    (ACR_StringFromMemory src mem L M).m_Buffer.m_Length ≤ L ∧
    (ACR_StringFromMemory src mem L M).m_Count ≤ M ∧
    (∀ fuel pos count, pos < L → (M = ACR_MAX_COUNT ∨ count < M) →
      mem.getD pos 0 ≠ 0 → L - pos < ACR_UTF8_BYTE_COUNT (mem.getD pos 0) →
      scanMemory mem L M (fuel + 1) pos count =
        { consumed := L, count := count + 1, reads := [pos] }) := by
  have hne : L ≠ ACR_MAX_LENGTH := Nat.ne_of_lt hL
  have hlen := scanMemory_consumed_le mem L M hne (mem.length + 1) 0 0 (Nat.zero_le _)
  refine ⟨scanMemory_fuel_add mem L M, scanMemory_reads_lt mem L M hne _ 0 0, ?_, ?_,
    fun fuel pos count hpos hM h0 hcut =>
      scanMemory_truncated mem L M fuel pos count hne hpos hM h0 hcut⟩
  · by_cases hsrc : src = ACR_NULL
    · simp [ACR_StringFromMemory, hsrc]
    · simp only [ACR_StringFromMemory, if_neg hsrc]
      exact hlen
  · by_cases hsrc : src = ACR_NULL
    · simp [ACR_StringFromMemory, hsrc]
    · simp only [ACR_StringFromMemory, if_neg hsrc]
      by_cases hM : M = ACR_MAX_COUNT
      · have hcc := scanMemory_count_le_consumed mem L M (mem.length + 1) 0 0 (Nat.le_refl _)
        have hcap : L ≤ M := by
          rw [hM]
          exact Nat.le_of_lt hL
        exact le_trans hcc (le_trans hlen hcap)
      · exact scanMemory_count_le_cap mem L M hM _ 0 0 (Nat.zero_le _)

/-- Witness for C13: `A` followed by a 3-byte lead with byte limit 2, so that one
byte remains for the 3-byte sequence: two characters, two bytes, and only the
offsets 0 and 1 are read. -/
theorem string_from_memory_truncation_safe_witness :
    (ACR_StringFromMemory 4096 [0x41, 0xE4, 0xB8, 0xAD, 0x00] 2 ACR_MAX_COUNT).m_Buffer.m_Length
      ≤ 2 ∧
    (∀ off ∈ (scanMemory [0x41, 0xE4, 0xB8, 0xAD, 0x00] 2 ACR_MAX_COUNT 6 0 0).reads, off < 2) ∧
    scanMemory [0x41, 0xE4, 0xB8, 0xAD, 0x00] 2 ACR_MAX_COUNT 5 1 1 =
      { consumed := 2, count := 2, reads := [1] } :=
  ⟨(string_from_memory_truncation_safe 4096 [0x41, 0xE4, 0xB8, 0xAD, 0x00] 2 ACR_MAX_COUNT
      (by decide)).2.2.1,
   (string_from_memory_truncation_safe 4096 [0x41, 0xE4, 0xB8, 0xAD, 0x00] 2 ACR_MAX_COUNT
      (by decide)).2.1,
   (string_from_memory_truncation_safe 4096 [0x41, 0xE4, 0xB8, 0xAD, 0x00] 2 ACR_MAX_COUNT
      (by decide)).2.2.2.2 4 1 1 (by decide) (Or.inl rfl) (by decide) (by decide)⟩

/-- C14: for every known string, every `srcLength`, `maxCharacters` and
`caseSensitive`, `ACR_StringCompareToMemory` called with a null `src` returns
`ACR_INFO_INVALID`, whose value differs from those of `ACR_INFO_EQUAL`,
`ACR_INFO_LESS` and `ACR_INFO_GREATER`. -/
theorem string_compare_null_is_invalid (utf8ToUnicode : List Nat → Nat)
    (unicodeToLower : Nat → Nat) (string : ACR_String_t) (stringMem mem : List Nat)
    (srcLength maxCharacters : Nat) (caseSensitive : ACR_Info_t) :
    ACR_StringCompareToMemory utf8ToUnicode unicodeToLower string stringMem ACR_NULL mem
      srcLength maxCharacters caseSensitive = ACR_INFO_INVALID ∧
    ACR_INFO_INVALID.value ≠ ACR_INFO_EQUAL.value ∧
    ACR_INFO_INVALID.value ≠ ACR_INFO_LESS.value ∧
    ACR_INFO_INVALID.value ≠ ACR_INFO_GREATER.value := by
  refine ⟨?_, by decide, by decide, by decide⟩
  simp [ACR_StringCompareToMemory]

/-- C15: for every known string and every non-null `src` whose character count
after applying the caps differs from the known string's `m_Count`,
`ACR_StringCompareToMemory` returns `ACR_INFO_LESS` when the scanned `src` has
fewer characters than the known string and `ACR_INFO_GREATER` when it has more,
whatever the characters and whatever `caseSensitive`. -/
theorem string_compare_by_count (utf8ToUnicode : List Nat → Nat)
    (unicodeToLower : Nat → Nat) (string : ACR_String_t) (stringMem : List Nat)
    (src : Nat) (mem : List Nat) (srcLength maxCharacters : Nat) (caseSensitive : ACR_Info_t)
    (hsrc : src ≠ ACR_NULL) :
    ((ACR_StringFromMemory src mem srcLength maxCharacters).m_Count < string.m_Count →
      ACR_StringCompareToMemory utf8ToUnicode unicodeToLower string stringMem src mem
        srcLength maxCharacters caseSensitive = ACR_INFO_LESS) ∧
    ((ACR_StringFromMemory src mem srcLength maxCharacters).m_Count > string.m_Count →
      ACR_StringCompareToMemory utf8ToUnicode unicodeToLower string stringMem src mem
        srcLength maxCharacters caseSensitive = ACR_INFO_GREATER) := by
  constructor
  · intro h
    simp only [ACR_StringCompareToMemory, if_neg hsrc, if_pos h]
  · intro h
    have hnot : ¬ (ACR_StringFromMemory src mem srcLength maxCharacters).m_Count
        < string.m_Count := by omega
    simp only [ACR_StringCompareToMemory, if_neg hsrc, if_neg hnot, if_pos h]

/-- Witness for C15: the source `"xyz"` capped at one character against a known
string of two characters is less; uncapped it is greater. The code point of a
sequence is taken to be its first byte and no case is folded. -/
theorem string_compare_by_count_witness :
    ACR_StringCompareToMemory (fun bytes => bytes.headD 0) (fun u => u)
      ⟨⟨4096, 2⟩, 2⟩ [0x68, 0x69, 0x00] 8192 [0x78, 0x79, 0x7A, 0x00]
      ACR_MAX_LENGTH 1 ACR_INFO_YES = ACR_INFO_LESS ∧
    ACR_StringCompareToMemory (fun bytes => bytes.headD 0) (fun u => u)
      ⟨⟨4096, 2⟩, 2⟩ [0x68, 0x69, 0x00] 8192 [0x78, 0x79, 0x7A, 0x00]
      ACR_MAX_LENGTH ACR_MAX_COUNT ACR_INFO_YES = ACR_INFO_GREATER :=
  ⟨(string_compare_by_count (fun bytes => bytes.headD 0) (fun u => u)
      ⟨⟨4096, 2⟩, 2⟩ [0x68, 0x69, 0x00] 8192 [0x78, 0x79, 0x7A, 0x00]
      ACR_MAX_LENGTH 1 ACR_INFO_YES (by decide)).1 (by decide),
   (string_compare_by_count (fun bytes => bytes.headD 0) (fun u => u)
      ⟨⟨4096, 2⟩, 2⟩ [0x68, 0x69, 0x00] 8192 [0x78, 0x79, 0x7A, 0x00]
      ACR_MAX_LENGTH ACR_MAX_COUNT ACR_INFO_YES (by decide)).2 (by decide)⟩

/-! ## Informational values -/

/-- C21: in `enum ACR_Info_e`, `ACR_INFO_EQUAL` is 0 and equals `ACR_SUCCESS`,
while every other info value is non-zero, in particular `ACR_INFO_FALSE` and
`ACR_INFO_OK`. The 39 info values are pairwise distinct (they are the numbers
below 39) and `ACR_INFO_COUNT == 39`. -/
theorem info_values_distinct_and_counted :
    ACR_INFO_EQUAL.value = 0 ∧
    ACR_INFO_EQUAL.value = ACR_SUCCESS ∧
    (∀ info : ACR_Info_t, info ≠ ACR_INFO_EQUAL → info.value ≠ 0) ∧
    ACR_INFO_FALSE.value ≠ 0 ∧
    ACR_INFO_OK.value ≠ 0 ∧
    (∀ a b : ACR_Info_t, a ≠ b → a.value ≠ b.value) ∧
    (∀ info : ACR_Info_t, info ≠ ACR_INFO_COUNT → info.value < 39) ∧
    ACR_INFO_COUNT.value = 39 := by
  refine ⟨rfl, rfl, ?_, by decide, by decide, ?_, ?_, rfl⟩
  · intro info h hv
    exact h (info_value_injective info ACR_INFO_EQUAL hv)
  · intro a b h hv
    exact h (info_value_injective a b hv)
  · intro info h
    cases info <;> first | decide | exact absurd rfl h

/-- Witness for C21: `ACR_INFO_FALSE` is not `ACR_INFO_EQUAL`, so its value is
non-zero; `ACR_INFO_YES` and `ACR_INFO_NO` have different values; the last
info value `ACR_INFO_END` is below 39. -/
theorem info_values_distinct_and_counted_witness :
    ACR_INFO_FALSE.value ≠ 0 ∧
    ACR_INFO_YES.value ≠ ACR_INFO_NO.value ∧
    ACR_INFO_END.value < 39 :=
  ⟨info_values_distinct_and_counted.2.2.1 ACR_INFO_FALSE (by decide),
   info_values_distinct_and_counted.2.2.2.2.2.1 ACR_INFO_YES ACR_INFO_NO (by decide),
   info_values_distinct_and_counted.2.2.2.2.2.2.1 ACR_INFO_END (by decide)⟩

/-! ## Decimal comparison, symmetry -/

/-- C22: the tolerance band is symmetric. Over exact arithmetic, for every
tolerance `t >= 0` and all `a`, `b`: `ACR_DECIMAL_TOLERANCE_COMPARE(a, b, t)` is
`ACR_INFO_GREATER` if and only if `ACR_DECIMAL_TOLERANCE_COMPARE(b, a, t)` is
`ACR_INFO_LESS`, and it is `ACR_INFO_EQUAL` for `(a, b)` if and only if it is
`ACR_INFO_EQUAL` for `(b, a)`. -/
theorem decimal_tolerance_compare_symmetric (a b t : ℚ) (ht : 0 ≤ t) :
    (ACR_DECIMAL_TOLERANCE_COMPARE a b t = ACR_INFO_GREATER ↔
      ACR_DECIMAL_TOLERANCE_COMPARE b a t = ACR_INFO_LESS) ∧
    (ACR_DECIMAL_TOLERANCE_COMPARE a b t = ACR_INFO_EQUAL ↔
      ACR_DECIMAL_TOLERANCE_COMPARE b a t = ACR_INFO_EQUAL) := by
  unfold ACR_DECIMAL_TOLERANCE_COMPARE
  by_cases h1 : a - t > b
  · have h2 : ¬ b - t > a := by
      intro h
      linarith
    have h3 : b + t < a := by linarith
    rw [if_pos h1, if_neg h2, if_pos h3]
    exact ⟨⟨fun _ => rfl, fun _ => rfl⟩,
      ⟨fun h => absurd h (by decide), fun h => absurd h (by decide)⟩⟩
  · have h3 : ¬ b + t < a := by
      intro h
      apply h1
      linarith
    rw [if_neg h1]
    by_cases h4 : a + t < b
    · have h5 : b - t > a := by linarith
      rw [if_pos h4, if_pos h5]
      exact ⟨⟨fun h => absurd h (by decide), fun h => absurd h (by decide)⟩,
        ⟨fun h => absurd h (by decide), fun h => absurd h (by decide)⟩⟩
    · have h5 : ¬ b - t > a := by
        intro h
        apply h4
        linarith
      rw [if_neg h4, if_neg h5, if_neg h3]
      exact ⟨⟨fun h => absurd h (by decide), fun h => absurd h (by decide)⟩,
        ⟨fun _ => rfl, fun _ => rfl⟩⟩

/-- Witness for C22: 2 against 1 with tolerance 1/2 is greater, so 1 against 2
is less. -/
theorem decimal_tolerance_compare_symmetric_witness :
    ACR_DECIMAL_TOLERANCE_COMPARE 1 2 (1 / 2) = ACR_INFO_LESS :=
  (decimal_tolerance_compare_symmetric 2 1 (1 / 2) (by norm_num)).1.mp
    (by unfold ACR_DECIMAL_TOLERANCE_COMPARE; norm_num)

/-! ## Variable length buffer, capacity -/

/-- C23: the capacity of a variable buffer is a high-water mark. For every state
and requested length `n`, if `ACR_VAR_BUFFER_ALLOC(buffer, n)` does not hit an
allocation failure (no `malloc(n)` answered with null), the new capacity
`m_Buffer.m_Length` is `max(old capacity, n)`. An allocation failure and
`ACR_VAR_BUFFER_FREE` both set capacity, used length and pointer to the empty
state, and the capacity decreases only through one of these two. -/
theorem var_buffer_capacity_high_water (name : ACR_VarBuffer_t) (n answer : Nat) :
    (¬ (MemCall.malloc n ∈ (ACR_VAR_BUFFER_ALLOC name n answer).2 ∧ answer = ACR_NULL) →
      (ACR_VAR_BUFFER_ALLOC name n answer).1.m_Buffer.m_Length =
        max name.m_Buffer.m_Length n) ∧
    ((MemCall.malloc n ∈ (ACR_VAR_BUFFER_ALLOC name n answer).2 ∧ answer = ACR_NULL) →
      (ACR_VAR_BUFFER_ALLOC name n answer).1 =
        { m_Buffer := { m_Pointer := ACR_NULL, m_Length := 0 }, m_Length := 0 }) ∧
    (ACR_VAR_BUFFER_FREE name).1 =
      { m_Buffer := { m_Pointer := ACR_NULL, m_Length := 0 }, m_Length := 0 } ∧
    (∀ op : VarBufferOp, (op.run name).1.m_Buffer.m_Length < name.m_Buffer.m_Length →
      op = VarBufferOp.release ∨
      ∃ length failed, op = VarBufferOp.alloc length failed ∧
        MemCall.malloc length ∈ (op.run name).2 ∧ failed = ACR_NULL) := by
  refine ⟨?_, ?_, var_buffer_free_fst name, ?_⟩
  · intro hok
    by_cases hg : name.m_Buffer.m_Length < n
    · rw [var_buffer_alloc_grows name n answer hg] at hok ⊢
      have ha : answer ≠ ACR_NULL := by
        intro ha
        exact hok ⟨by simp, ha⟩
      simp only [if_neg ha]
      exact (Nat.max_eq_right (Nat.le_of_lt hg)).symm
    · have hle : n ≤ name.m_Buffer.m_Length := Nat.not_lt.mp hg
      rw [var_buffer_alloc_fits name n answer hle]
      exact (Nat.max_eq_left hle).symm
  · intro hfail
    by_cases hg : name.m_Buffer.m_Length < n
    · rw [var_buffer_alloc_grows name n answer hg]
      simp [hfail.2]
    · rw [var_buffer_alloc_fits name n answer (Nat.not_lt.mp hg)] at hfail
      simp at hfail
  · intro op hdec
    cases op with
    | release => exact Or.inl rfl
    | alloc length failed =>
      right
      refine ⟨length, failed, rfl, ?_⟩
      simp only [VarBufferOp.run] at hdec ⊢
      by_cases hg : name.m_Buffer.m_Length < length
      · rw [var_buffer_alloc_grows name length failed hg] at hdec ⊢
        by_cases ha : failed = ACR_NULL
        · exact ⟨by simp, ha⟩
        · simp only [if_neg ha] at hdec
          omega
      · rw [var_buffer_alloc_fits name length failed (Nat.not_lt.mp hg)] at hdec
        simp at hdec

/-- Witness for C23: from capacity 32, a successful request for 64 bytes gives
capacity 64 and a failed one empties the buffer; the failed request is an
operation that lowers the capacity. -/
theorem var_buffer_capacity_high_water_witness :
    (ACR_VAR_BUFFER_ALLOC ⟨⟨4096, 32⟩, 2⟩ 64 8192).1.m_Buffer.m_Length = max 32 64 ∧
    (ACR_VAR_BUFFER_ALLOC ⟨⟨4096, 32⟩, 2⟩ 64 ACR_NULL).1 = ⟨⟨ACR_NULL, 0⟩, 0⟩ ∧
    (VarBufferOp.alloc 64 ACR_NULL = VarBufferOp.release ∨
      ∃ length failed, VarBufferOp.alloc 64 ACR_NULL = VarBufferOp.alloc length failed ∧
        MemCall.malloc length ∈
          ((VarBufferOp.alloc 64 ACR_NULL).run ⟨⟨4096, 32⟩, 2⟩).2 ∧
        failed = ACR_NULL) :=
  ⟨(var_buffer_capacity_high_water ⟨⟨4096, 32⟩, 2⟩ 64 8192).1 (by decide),
   (var_buffer_capacity_high_water ⟨⟨4096, 32⟩, 2⟩ 64 ACR_NULL).2.1 (by decide),
   (var_buffer_capacity_high_water ⟨⟨4096, 32⟩, 2⟩ 64 ACR_NULL).2.2.2
     (VarBufferOp.alloc 64 ACR_NULL) (by decide)⟩

/-! ## UTF8 byte count, progress -/

set_option maxRecDepth 20000 in
/-- C24: for every byte `c` in 0..255, `ACR_UTF8_BYTE_COUNT(c)` lies between 1
and 4, and a continuation byte (`10xxxxxx`) yields 1; so a scan that advances
by `ACR_UTF8_BYTE_COUNT` of the current byte moves forward by at least one byte
and at most four. -/
theorem utf8_byte_count_progress (c : Nat) (hc : c < 256) :
    1 ≤ ACR_UTF8_BYTE_COUNT c ∧
    ACR_UTF8_BYTE_COUNT c ≤ 4 ∧
    (c &&& 0b11000000 = 0b10000000 → ACR_UTF8_BYTE_COUNT c = 1) ∧
    (∀ pos, pos + 1 ≤ pos + ACR_UTF8_BYTE_COUNT c ∧ pos + ACR_UTF8_BYTE_COUNT c ≤ pos + 4) := by
  have hall : ∀ b, b < 256 →
      1 ≤ ACR_UTF8_BYTE_COUNT b ∧ ACR_UTF8_BYTE_COUNT b ≤ 4 ∧
      (b &&& 0b11000000 = 0b10000000 → ACR_UTF8_BYTE_COUNT b = 1) := by
    decide
  obtain ⟨h1, h4, hcont⟩ := hall c hc
  exact ⟨h1, h4, hcont, fun pos => ⟨by omega, by omega⟩⟩

/-- Witness for C24: the continuation byte 0xA9 counts as 1 byte, and the lead
byte 0xF0 advances a scan at offset 10 to offset 14 at most. -/
theorem utf8_byte_count_progress_witness :
    ACR_UTF8_BYTE_COUNT 0xA9 = 1 ∧
    (10 + 1 ≤ 10 + ACR_UTF8_BYTE_COUNT 0xF0 ∧ 10 + ACR_UTF8_BYTE_COUNT 0xF0 ≤ 10 + 4) :=
  ⟨(utf8_byte_count_progress 0xA9 (by decide)).2.2.1 (by decide),
   (utf8_byte_count_progress 0xF0 (by decide)).2.2.2 10⟩

/-! ## Byte swaps -/

/-- C25: `ACR_BYTE_ORDER_SWAP_16(x)` exchanges the two low-order bytes of `x`
and `ACR_BYTE_ORDER_SWAP_32(x)` reverses the four low-order bytes of `x`, so
`SWAP_16(1) == 256` and `SWAP_32(0x00010000) == 0x00000100`. With
`unsigned long` of 32 or of 64 bits the 32-bit result is below `2^32` and
depends only on `x mod 2^32`, hence `SWAP_32(SWAP_32(x)) == x mod 2^32` for
every `x`. -/
theorem byte_order_swap_bytes (longBits x : Nat) (hw : longBits = 32 ∨ longBits = 64) :
    (∀ b0 b1 rest, b0 < 256 → b1 < 256 →
      ACR_BYTE_ORDER_SWAP_16 (b0 + 256 * b1 + 65536 * rest) = b1 + 256 * b0) ∧
    (∀ b0 b1 b2 b3 rest, b0 < 256 → b1 < 256 → b2 < 256 → b3 < 256 →
      ACR_BYTE_ORDER_SWAP_32 longBits
          (b0 + 256 * b1 + 65536 * b2 + 16777216 * b3 + 4294967296 * rest) =
        b3 + 256 * b2 + 65536 * b1 + 16777216 * b0) ∧
    ACR_BYTE_ORDER_SWAP_16 1 = 256 ∧
    ACR_BYTE_ORDER_SWAP_32 longBits 0x00010000 = 0x00000100 ∧
    ACR_BYTE_ORDER_SWAP_32 longBits x < 2 ^ 32 ∧
    ACR_BYTE_ORDER_SWAP_32 longBits x = ACR_BYTE_ORDER_SWAP_32 longBits (x % 2 ^ 32) ∧
    ACR_BYTE_ORDER_SWAP_32 longBits (ACR_BYTE_ORDER_SWAP_32 longBits x) = x % 2 ^ 32 := by
  obtain ⟨b0, b1, b2, b3, rest, h0, h1, h2, h3, hx⟩ := four_bytes_and_rest x
  have hmod : x % 2 ^ 32 = b0 + 256 * b1 + 65536 * b2 + 16777216 * b3 + 4294967296 * 0 := by
    norm_num
    omega
  have hswap := swap_32_bytes_rest longBits b0 b1 b2 b3 rest hw h0 h1 h2 h3
  have hswap0 := swap_32_bytes_rest longBits b0 b1 b2 b3 0 hw h0 h1 h2 h3
  have hback := swap_32_bytes_rest longBits b3 b2 b1 b0 0 hw h3 h2 h1 h0
  refine ⟨fun c0 c1 r hc0 hc1 => swap_16_bytes_rest c0 c1 r hc0 hc1,
    fun c0 c1 c2 c3 r hc0 hc1 hc2 hc3 => swap_32_bytes_rest longBits c0 c1 c2 c3 r hw hc0 hc1 hc2 hc3,
    by decide, ?_, ?_, ?_, ?_⟩
  · rw [swap_32_arith _ _ hw]
  · rw [hx, hswap]
    norm_num
    omega
  · rw [hmod, hswap0, hx, hswap]
  · rw [hmod, hx, hswap]
    have e : b3 + 256 * b2 + 65536 * b1 + 16777216 * b0 =
        b3 + 256 * b2 + 65536 * b1 + 16777216 * b0 + 4294967296 * 0 := by omega
    rw [e, hback]
    omega

/-- Witness for C25: with a 64-bit `unsigned long`, the value
`0x1_0000_0000 + 0x12345678` swaps to `0x78563412`, and swapping twice keeps
only the low 32 bits. -/
theorem byte_order_swap_bytes_witness :
    ACR_BYTE_ORDER_SWAP_16 (0x34 + 256 * 0x12 + 65536 * 7) = 0x12 + 256 * 0x34 ∧
    ACR_BYTE_ORDER_SWAP_32 64 (ACR_BYTE_ORDER_SWAP_32 64 0x112345678) = 0x112345678 % 2 ^ 32 :=
  ⟨(byte_order_swap_bytes 64 0x112345678 (Or.inr rfl)).1 0x34 0x12 7 (by decide) (by decide),
   (byte_order_swap_bytes 64 0x112345678 (Or.inr rfl)).2.2.2.2.2.2⟩

/-! ## Unique string values -/

/-- C26: the unique string values are in alphabetical order with no duplicates.
Read in file order, the 46 string literals of the `ACR_INFO_STR_*` and
`ACR_DAY_STR_*` defines are strictly increasing lexicographically, hence
pairwise distinct; there is exactly one `ACR_INFO_STR_*` define for each of the
39 `ACR_Info_e` values and one `ACR_DAY_STR_*` define for each of the 7 days
(and none for `ACR_INFO_COUNT` or `ACR_DAY_COUNT`). -/
theorem unique_string_values_sorted :
    uniqueStringLiterals.length = 46 ∧
    List.Pairwise (fun a b : String => literalLess a.toList b.toList = true)
      uniqueStringLiterals ∧
    uniqueStringLiterals.Nodup ∧
    (∀ info : ACR_Info_t, info ≠ ACR_INFO_COUNT → definesFor (StringDefine.info info) = 1) ∧
    (∀ day : ACR_DayOfWeek_t, day ≠ ACR_DAY_COUNT → definesFor (StringDefine.day day) = 1) ∧
    definesFor (StringDefine.info ACR_INFO_COUNT) = 0 ∧
    definesFor (StringDefine.day ACR_DAY_COUNT) = 0 := by
  refine ⟨by decide, by decide, by decide, ?_, ?_, by decide, by decide⟩
  · intro info h
    cases info <;> first | rfl | exact absurd rfl h
  · intro day h
    cases day <;> first | rfl | exact absurd rfl h

/-- Witness for C26: `ACR_INFO_NOT_EQUAL` and `ACR_DAY_THURSDAY` each have exactly
one define. -/
theorem unique_string_values_sorted_witness :
    definesFor (StringDefine.info ACR_INFO_NOT_EQUAL) = 1 ∧
    definesFor (StringDefine.day ACR_DAY_THURSDAY) = 1 :=
  ⟨unique_string_values_sorted.2.2.2.1 ACR_INFO_NOT_EQUAL (by decide),
   unique_string_values_sorted.2.2.2.2.1 ACR_DAY_THURSDAY (by decide)⟩

end ACR
